import Mathlib

/-!
Shallow embedding of the bounty/sub-bounty pallet
(`src/frame/bounties/src/lib.rs`) and proofs of the specification claims.

Balances are modelled as `Nat` (the pallet's `Balance` is an unsigned
integer; `saturating_sub` is `Nat` truncated subtraction, `saturating_add`
is `+`).  Block numbers are `Nat`.  Account identifiers distinguish user
accounts, the treasury pot account (`Module::account_id`) and the derived
per-index escrow accounts (`Module::bounty_account_id`), which are pairwise
distinct because the account deriver is injective.  The currency ledger is
modelled with free and reserved balances per account; locks and the
existential deposit are not modelled, so `ensure_can_withdraw` always
succeeds and transfers succeed exactly when the source account holds the
amount.
-/

namespace Bounties

abbrev Balance := Nat
abbrev BlockNum := Nat
abbrev BountyIndex := Nat

/-- Account identifiers: user accounts, the treasury pot account, and the
per-bounty escrow accounts derived by `bounty_account_id`. -/
inductive AccountId where
  | user (n : Nat)
  | pot
  | escrow (i : BountyIndex)
deriving DecidableEq, Repr

/-- `BountyStatus` from the source. -/
inductive BountyStatus where
  | Proposed
  | Approved
  | Funded
  | CuratorProposed (curator : AccountId)
  | Active (curator : AccountId) (update_due : BlockNum)
  | PendingPayout (curator : AccountId) (beneficiary : AccountId) (unlock_at : BlockNum)
deriving DecidableEq, Repr

/-- `SubBountyStatus` from the source. -/
inductive SubBountyStatus where
  | Added
  | SubCuratorProposed (subcurator : AccountId)
  | Active (subcurator : AccountId)
  | PendingPayout (subcurator : AccountId) (beneficiary : AccountId) (unlock_at : BlockNum)
deriving DecidableEq, Repr

/-- The `Bounty` record from the source. -/
structure Bounty where
  proposer : AccountId
  value : Balance
  fee : Balance
  curator_deposit : Balance
  bond : Balance
  status : BountyStatus
  active_subbounty_count : Nat
deriving DecidableEq, Repr

/-- The `SubBounty` record from the source. -/
structure SubBounty where
  value : Balance
  fee : Balance
  curator_deposit : Balance
  status : SubBountyStatus
deriving DecidableEq, Repr

/-- Dispatch errors raised by the pallet (`decl_error`) together with
`BadOrigin` and a generic currency-layer error (a failed `reserve`). -/
inductive Err where
  | InsufficientProposersBalance
  | InvalidIndex
  | ReasonTooBig
  | UnexpectedStatus
  | RequireCurator
  | InvalidValue
  | InvalidFee
  | PendingPayout
  | Premature
  | InsufficientBountyBalance
  | SubBountyActive
  | TooManySubBounties
  | RequireSubCurator
  | BadOrigin
  | CurrencyError
deriving DecidableEq, Repr

/-- Runtime configuration constants (the `Config` trait).  The curator
deposit rate is given in parts per million (`Permill`). -/
structure Config where
  bountyDepositBase : Balance
  dataDepositPerByte : Balance
  bountyDepositPayoutDelay : BlockNum
  bountyUpdatePeriod : BlockNum
  bountyCuratorDepositPpm : Nat
  bountyValueMinimum : Balance
  maximumReasonLength : Nat
  maxActiveSubBountyCount : Nat
deriving Repr

/-- `Permill * balance` as computed by `sp_arithmetic`. -/
def ppmMul (ppm : Nat) (x : Balance) : Balance := ppm * x / 1000000

/-- The persisted state surface: the bounty counter, the bounty map, the
sub-bounty double map, the shared description map, the approval queue, and
the currency ledger (free and reserved balances). -/
structure State where
  bountyCount : Nat
  bounties : BountyIndex → Option Bounty
  subbounties : BountyIndex → BountyIndex → Option SubBounty
  descriptions : BountyIndex → Option (List Nat)
  approvals : List BountyIndex
  free : AccountId → Balance
  reserved : AccountId → Balance

/-- Point update of the bounty map. -/
def updB (f : BountyIndex → Option Bounty) (id : BountyIndex) (v : Option Bounty) :
    BountyIndex → Option Bounty :=
  fun id' => if id' = id then v else f id'

/-- Point update of the sub-bounty double map. -/
def updSub (f : BountyIndex → BountyIndex → Option SubBounty) (pb sid : BountyIndex)
    (v : Option SubBounty) : BountyIndex → BountyIndex → Option SubBounty :=
  fun pb' sid' => if pb' = pb ∧ sid' = sid then v else f pb' sid'

/-- Point update of the description map. -/
def updD (f : BountyIndex → Option (List Nat)) (id : BountyIndex) (v : Option (List Nat)) :
    BountyIndex → Option (List Nat) :=
  fun id' => if id' = id then v else f id'

/-- Point update of a balance function. -/
def updBal (f : AccountId → Balance) (a : AccountId) (x : Balance) : AccountId → Balance :=
  fun a' => if a' = a then x else f a'

/-! Currency primitives (`frame_support::traits::Currency` /
`ReservableCurrency` as implemented by the balances pallet, without locks
or existential deposit). -/

/-- `Currency::reserve`: fails unless the free balance covers the amount;
on success moves the amount from free to reserved. -/
def reserveOp (s : State) (who : AccountId) (amt : Balance) : Option State :=
  if amt ≤ s.free who then
    some { s with
      free := updBal s.free who (s.free who - amt),
      reserved := updBal s.reserved who (s.reserved who + amt) }
  else none

/-- `Currency::unreserve`: moves `min amt reserved` back to free; never
fails. -/
def unreserveOp (s : State) (who : AccountId) (amt : Balance) : State :=
  let moved := min amt (s.reserved who)
  { s with
    free := updBal s.free who (s.free who + moved),
    reserved := updBal s.reserved who (s.reserved who - moved) }

/-- `Currency::slash_reserved`: removes `min amt reserved` from the
reserved balance (the imbalance goes to the external `OnSlash` sink). -/
def slashReservedOp (s : State) (who : AccountId) (amt : Balance) : State :=
  let moved := min amt (s.reserved who)
  { s with reserved := updBal s.reserved who (s.reserved who - moved) }

/-- `Currency::transfer` with `AllowDeath`: fails unless the source free
balance covers the amount. -/
def transferOp (s : State) (src dst : AccountId) (amt : Balance) : Option State :=
  if amt ≤ s.free src then
    let s1 := { s with free := updBal s.free src (s.free src - amt) }
    some { s1 with free := updBal s1.free dst (s1.free dst + amt) }
  else none

/-- A `let _ = T::Currency::transfer(...)` call site: the error is
swallowed and the state left unchanged on failure. -/
def transferBestEffort (s : State) (src dst : AccountId) (amt : Balance) : State :=
  (transferOp s src dst amt).getD s

/-- `Currency::deposit_creating`. -/
def depositCreating (s : State) (who : AccountId) (amt : Balance) : State :=
  { s with free := updBal s.free who (s.free who + amt) }

/-- Write the bounty record at `id`. -/
def setBounty (s : State) (id : BountyIndex) (v : Option Bounty) : State :=
  { s with bounties := updB s.bounties id v }

/-- Write the sub-bounty record at `(id, sid)`. -/
def setSubBounty (s : State) (id sid : BountyIndex) (v : Option SubBounty) : State :=
  { s with subbounties := updSub s.subbounties id sid v }

/-- Write the description at `id`. -/
def setDesc (s : State) (id : BountyIndex) (v : Option (List Nat)) : State :=
  { s with descriptions := updD s.descriptions id v }

/-!
The dispatchables.  Each is a function from the pre-state to an optional
dispatch error together with the post-state; the checks and mutations
follow the order of the corresponding function body in the source.  The
`maybe_sender` argument of the unassign/close calls is `none` when the
call comes from `RejectOrigin` and `some sender` for a signed origin
(mirroring the `ensure_signed(..).map(Some).or_else(RejectOrigin ..)`
idiom).  Calls gated on `ApproveOrigin`/`RejectOrigin` alone are modelled
with the origin check already passed.
-/

/-- `propose_bounty` (with `create_bounty` inlined). -/
def propose_bounty (cfg : Config) (proposer : AccountId) (value : Balance)
    (description : List Nat) (s : State) : Option Err × State :=
  if description.length > cfg.maximumReasonLength then (some .ReasonTooBig, s)
  else if value < cfg.bountyValueMinimum then (some .InvalidValue, s)
  else
    let index := s.bountyCount
    let bond := cfg.bountyDepositBase + cfg.dataDepositPerByte * description.length
    match reserveOp s proposer bond with
    | none => (some .InsufficientProposersBalance, s)
    | some s1 =>
        let b : Bounty := { proposer := proposer, value := value, fee := 0, curator_deposit := 0, bond := bond, status := .Proposed, active_subbounty_count := 0 }
        let s2 := { s1 with bountyCount := index + 1 }
        (none, setDesc (setBounty s2 index (some b)) index (some description))

/-- `approve_bounty` (origin already checked against `ApproveOrigin`). -/
def approve_bounty (id : BountyIndex) (s : State) : Option Err × State :=
  match s.bounties id with
  | none => (some .InvalidIndex, s)
  | some b =>
      if b.status = .Proposed then
        let s1 := setBounty s id (some { b with status := .Approved })
        (none, { s1 with approvals := s1.approvals ++ [id] })
      else (some .UnexpectedStatus, s)

/-- `propose_curator` (origin already checked against `ApproveOrigin`). -/
def propose_curator (id : BountyIndex) (curator : AccountId) (fee : Balance)
    (s : State) : Option Err × State :=
  match s.bounties id with
  | none => (some .InvalidIndex, s)
  | some b =>
      match b.status with
      | .Proposed | .Approved | .Funded =>
          if fee < b.value then
            (none, setBounty s id (some { b with status := .CuratorProposed curator, fee := fee }))
          else (some .InvalidFee, s)
      | _ => (some .UnexpectedStatus, s)

/-- `unassign_curator`. -/
def unassign_curator (now : BlockNum) (maybe_sender : Option AccountId)
    (id : BountyIndex) (s : State) : Option Err × State :=
  match s.bounties id with
  | none => (some .InvalidIndex, s)
  | some b =>
      match b.status with
      | .Proposed | .Approved | .Funded => (some .UnexpectedStatus, s)
      | .CuratorProposed curator =>
          match maybe_sender with
          | none => (none, setBounty s id (some { b with status := .Funded }))
          | some sender =>
              if sender = curator then
                (none, setBounty s id (some { b with status := .Funded }))
              else (some .BadOrigin, s)
      | .Active curator update_due =>
          match maybe_sender with
          | none =>
              let s1 := slashReservedOp s curator b.curator_deposit
              (none, setBounty s1 id (some { b with curator_deposit := 0, status := .Funded }))
          | some sender =>
              if sender ≠ curator then
                if update_due < now then
                  let s1 := slashReservedOp s curator b.curator_deposit
                  (none, setBounty s1 id (some { b with curator_deposit := 0, status := .Funded }))
                else (some .Premature, s)
              else
                -- curator resigns: deposit unreserved, the field is not reset
                let s1 := unreserveOp s curator b.curator_deposit
                (none, setBounty s1 id (some { b with status := .Funded }))
      | .PendingPayout curator _ _ =>
          match maybe_sender with
          | some _ => (some .BadOrigin, s)
          | none =>
              let s1 := slashReservedOp s curator b.curator_deposit
              (none, setBounty s1 id (some { b with curator_deposit := 0, status := .Funded }))

/-- `accept_curator`. -/
def accept_curator (cfg : Config) (now : BlockNum) (signer : AccountId)
    (id : BountyIndex) (s : State) : Option Err × State :=
  match s.bounties id with
  | none => (some .InvalidIndex, s)
  | some b =>
      match b.status with
      | .CuratorProposed curator =>
          if signer = curator then
            let deposit := ppmMul cfg.bountyCuratorDepositPpm b.fee
            match reserveOp s curator deposit with
            | none => (some .CurrencyError, s)
            | some s1 =>
                (none, setBounty s1 id (some { b with curator_deposit := deposit, status := .Active curator (now + cfg.bountyUpdatePeriod) }))
          else (some .RequireCurator, s)
      | _ => (some .UnexpectedStatus, s)

/-- `award_bounty`. -/
def award_bounty (cfg : Config) (now : BlockNum) (signer : AccountId)
    (id : BountyIndex) (beneficiary : AccountId) (s : State) : Option Err × State :=
  match s.bounties id with
  | none => (some .InvalidIndex, s)
  | some b =>
      if b.active_subbounty_count ≠ 0 then (some .SubBountyActive, s)
      else
        match b.status with
        | .Active curator _ =>
            if signer = curator then
              (none, setBounty s id (some { b with status := .PendingPayout signer beneficiary (now + cfg.bountyDepositPayoutDelay) }))
            else (some .RequireCurator, s)
        | _ => (some .UnexpectedStatus, s)

/-- `claim_bounty` (any signed origin). -/
def claim_bounty (now : BlockNum) (id : BountyIndex) (s : State) : Option Err × State :=
  match s.bounties id with
  | none => (some .InvalidIndex, s)
  | some b =>
      match b.status with
      | .PendingPayout curator beneficiary unlock_at =>
          if unlock_at ≤ now then
            let bounty_account := AccountId.escrow id
            let balance := s.free bounty_account
            let fee := min b.fee balance
            let s1 := unreserveOp s curator b.curator_deposit
            let s2 := transferBestEffort s1 bounty_account curator fee
            let payout := balance - fee
            let s3 := transferBestEffort s2 bounty_account beneficiary payout
            (none, setBounty (setDesc s3 id none) id none)
          else (some .Premature, s)
      | _ => (some .UnexpectedStatus, s)

/-- Shared tail of `close_bounty` for the `Funded`, `CuratorProposed` and
`Active` arms: remove the description, route the escrow balance back to
the treasury pot, remove the record. -/
def closeFinish (id : BountyIndex) (s : State) : Option Err × State :=
  let bounty_account := AccountId.escrow id
  let s1 := setDesc s id none
  let balance := s1.free bounty_account
  let s2 := transferBestEffort s1 bounty_account .pot balance
  (none, setBounty s2 id none)

/-- `close_bounty` (origin already checked against `RejectOrigin`). -/
def close_bounty (id : BountyIndex) (s : State) : Option Err × State :=
  match s.bounties id with
  | none => (some .InvalidIndex, s)
  | some b =>
      if b.active_subbounty_count ≠ 0 then (some .SubBountyActive, s)
      else
        match b.status with
        | .Proposed =>
            let s1 := setDesc s id none
            let s2 := slashReservedOp s1 b.proposer b.bond
            (none, setBounty s2 id none)
        | .Approved => (some .UnexpectedStatus, s)
        | .Funded => closeFinish id s
        | .CuratorProposed _ => closeFinish id s
        | .Active curator _ =>
            let s1 := unreserveOp s curator b.curator_deposit
            closeFinish id s1
        | .PendingPayout _ _ _ => (some .PendingPayout, s)

/-- `extend_bounty_expiry`. -/
def extend_bounty_expiry (cfg : Config) (now : BlockNum) (signer : AccountId)
    (id : BountyIndex) (s : State) : Option Err × State :=
  match s.bounties id with
  | none => (some .InvalidIndex, s)
  | some b =>
      match b.status with
      | .Active curator update_due =>
          if curator = signer then
            (none, setBounty s id (some { b with status := .Active curator (max (now + cfg.bountyUpdatePeriod) update_due) }))
          else (some .RequireCurator, s)
      | _ => (some .UnexpectedStatus, s)

/-- `add_subbounty`. -/
def add_subbounty (cfg : Config) (signer : AccountId) (id : BountyIndex)
    (value : Balance) (description : List Nat) (s : State) : Option Err × State :=
  match s.bounties id with
  | none => (some .InvalidIndex, s)
  | some b =>
      match b.status with
      | .Active curator _ =>
          if signer = curator then
            if description.length > cfg.maximumReasonLength then (some .ReasonTooBig, s)
            else if value < cfg.bountyValueMinimum then (some .InvalidValue, s)
            else if ¬ b.active_subbounty_count < cfg.maxActiveSubBountyCount then
              (some .TooManySubBounties, s)
            else
              let bounty_account := AccountId.escrow id
              let balance := s.free bounty_account
              let expect_balance := value + b.fee
              if balance < expect_balance then (some .InsufficientBountyBalance, s)
              else
                -- `ensure_can_withdraw` only checks liquidity locks, not modelled
                let subbounty_id := s.bountyCount
                let s1 := setBounty s id (some { b with active_subbounty_count := b.active_subbounty_count + 1 })
                let s2 := { s1 with bountyCount := subbounty_id + 1 }
                let s3 := transferBestEffort s2 bounty_account (AccountId.escrow subbounty_id) value
                let sb : SubBounty := { value := value, fee := 0, curator_deposit := 0, status := .Added }
                (none, setDesc (setSubBounty s3 id subbounty_id (some sb)) subbounty_id (some description))
          else (some .RequireCurator, s)
      | _ => (some .UnexpectedStatus, s)

/-- `ensure_bounty_active`. -/
def ensure_bounty_active (s : State) (id : BountyIndex) :
    Except Err (AccountId × BlockNum) :=
  match s.bounties id with
  | none => .error .InvalidIndex
  | some b =>
      match b.status with
      | .Active curator update_due => .ok (curator, update_due)
      | _ => .error .UnexpectedStatus

/-- `propose_subcurator`. -/
def propose_subcurator (signer : AccountId) (id sid : BountyIndex)
    (subcurator : AccountId) (fee : Balance) (s : State) : Option Err × State :=
  match ensure_bounty_active s id with
  | .error e => (some e, s)
  | .ok (master_curator, _) =>
      match s.subbounties id sid with
      | none => (some .InvalidIndex, s)
      | some sb =>
          if signer = master_curator then
            if sb.status = .Added then
              if fee < sb.value then
                -- inner `Bounties::mutate_exists` on the parent record
                match s.bounties id with
                | none =>
                    (none, setSubBounty s id sid (some { sb with fee := fee, status := .SubCuratorProposed subcurator }))
                | some b =>
                    if fee < b.fee then
                      let s1 := setBounty s id (some { b with fee := b.fee - fee })
                      (none, setSubBounty s1 id sid (some { sb with fee := fee, status := .SubCuratorProposed subcurator }))
                    else (some .InvalidFee, s)
              else (some .InvalidFee, s)
            else (some .UnexpectedStatus, s)
          else (some .RequireCurator, s)

/-- `accept_subcurator`. -/
def accept_subcurator (cfg : Config) (signer : AccountId) (id sid : BountyIndex)
    (s : State) : Option Err × State :=
  match ensure_bounty_active s id with
  | .error e => (some e, s)
  | .ok _ =>
      match s.subbounties id sid with
      | none => (some .InvalidIndex, s)
      | some sb =>
          match sb.status with
          | .SubCuratorProposed subcurator =>
              if signer = subcurator then
                let deposit := ppmMul cfg.bountyCuratorDepositPpm sb.fee
                match reserveOp s subcurator deposit with
                | none => (some .CurrencyError, s)
                | some s1 =>
                    (none, setSubBounty s1 id sid (some { sb with curator_deposit := deposit, status := .Active subcurator }))
              else (some .RequireSubCurator, s)
          | _ => (some .UnexpectedStatus, s)

/-- `unassign_subcurator`. -/
def unassign_subcurator (now : BlockNum) (maybe_sender : Option AccountId)
    (id sid : BountyIndex) (s : State) : Option Err × State :=
  match ensure_bounty_active s id with
  | .error e => (some e, s)
  | .ok (master_curator, update_due) =>
      match s.subbounties id sid with
      | none => (some .InvalidIndex, s)
      | some sb =>
          match sb.status with
          | .Added => (some .UnexpectedStatus, s)
          | .SubCuratorProposed subcurator =>
              match maybe_sender with
              | none => (none, setSubBounty s id sid (some { sb with status := .Added }))
              | some sender =>
                  if sender = subcurator ∨ sender = master_curator then
                    (none, setSubBounty s id sid (some { sb with status := .Added }))
                  else (some .BadOrigin, s)
          | .Active subcurator =>
              match maybe_sender with
              | none =>
                  let s1 := slashReservedOp s subcurator sb.curator_deposit
                  (none, setSubBounty s1 id sid (some { sb with curator_deposit := 0, status := .Added }))
              | some sender =>
                  if sender = subcurator then
                    -- subcurator resigns: deposit unreserved, field not reset
                    let s1 := unreserveOp s subcurator sb.curator_deposit
                    (none, setSubBounty s1 id sid (some { sb with status := .Added }))
                  else if sender = master_curator then
                    let s1 := slashReservedOp s subcurator sb.curator_deposit
                    (none, setSubBounty s1 id sid (some { sb with curator_deposit := 0, status := .Added }))
                  else if update_due < now then
                    let s1 := slashReservedOp s subcurator sb.curator_deposit
                    (none, setSubBounty s1 id sid (some { sb with curator_deposit := 0, status := .Added }))
                  else (some .Premature, s)
          | .PendingPayout subcurator _ _ =>
              match maybe_sender with
              | none =>
                  let s1 := slashReservedOp s subcurator sb.curator_deposit
                  (none, setSubBounty s1 id sid (some { sb with curator_deposit := 0, status := .Added }))
              | some sender =>
                  if sender = master_curator then
                    let s1 := slashReservedOp s subcurator sb.curator_deposit
                    (none, setSubBounty s1 id sid (some { sb with curator_deposit := 0, status := .Added }))
                  else (some .BadOrigin, s)

/-- `award_subbounty`. -/
def award_subbounty (cfg : Config) (now : BlockNum) (signer : AccountId)
    (id sid : BountyIndex) (beneficiary : AccountId) (s : State) : Option Err × State :=
  match ensure_bounty_active s id with
  | .error e => (some e, s)
  | .ok _ =>
      match s.subbounties id sid with
      | none => (some .InvalidIndex, s)
      | some sb =>
          match sb.status with
          | .Active subcurator =>
              if signer = subcurator then
                (none, setSubBounty s id sid (some { sb with status := .PendingPayout signer beneficiary (now + cfg.bountyDepositPayoutDelay) }))
              else (some .RequireSubCurator, s)
          | _ => (some .UnexpectedStatus, s)

/-- `claim_subbounty` (any signed origin; works whatever the parent's
state is, the parent count is only decremented when the parent record
still exists). -/
def claim_subbounty (now : BlockNum) (id sid : BountyIndex) (s : State) :
    Option Err × State :=
  match s.subbounties id sid with
  | none => (some .InvalidIndex, s)
  | some sb =>
      match sb.status with
      | .PendingPayout subcurator beneficiary unlock_at =>
          if unlock_at ≤ now then
            let subbounty_account := AccountId.escrow sid
            let balance := s.free subbounty_account
            let fee := min sb.fee balance
            let payout := balance - fee
            let s1 := unreserveOp s subcurator sb.curator_deposit
            let s2 := transferBestEffort s1 subbounty_account subcurator fee
            let s3 := transferBestEffort s2 subbounty_account beneficiary payout
            let s4 := match s3.bounties id with
              | some b => setBounty s3 id (some { b with active_subbounty_count := b.active_subbounty_count - 1 })
              | none => s3
            (none, setSubBounty (setDesc s4 sid none) id sid none)
          else (some .Premature, s)
      | _ => (some .UnexpectedStatus, s)

/-- `impl_close_subbounty`. -/
def impl_close_subbounty (id sid : BountyIndex) (s : State) : Option Err × State :=
  match s.subbounties id sid with
  | none => (some .InvalidIndex, s)
  | some sb =>
      match sb.status with
      | .PendingPayout _ _ _ => (some .PendingPayout, s)
      | st =>
          let s1 := match st with
            | .Active subcurator => unreserveOp s subcurator sb.curator_deposit
            | _ => s
          let s2 := match s1.bounties id with
            | some b => setBounty s1 id (some { b with fee := b.fee + sb.fee, active_subbounty_count := b.active_subbounty_count - 1 })
            | none => s1
          let bounty_account := AccountId.escrow id
          let subbounty_account := AccountId.escrow sid
          let balance := s2.free subbounty_account
          let s3 := transferBestEffort s2 subbounty_account bounty_account balance
          (none, setSubBounty (setDesc s3 sid none) id sid none)

/-- `close_subbounty`. -/
def close_subbounty (maybe_sender : Option AccountId) (id sid : BountyIndex)
    (s : State) : Option Err × State :=
  match ensure_bounty_active s id with
  | .error e => (some e, s)
  | .ok (master_curator, _) =>
      match maybe_sender with
      | none => impl_close_subbounty id sid s
      | some sender =>
          if sender = master_curator then impl_close_subbounty id sid s
          else (some .BadOrigin, s)

/-- Funding of one queued bounty inside `spend_funds`: set the status to
`Funded`, return the proposer's bond, deposit the value into the escrow
account. -/
def fundBounty (id : BountyIndex) (b : Bounty) (s : State) : State :=
  let s1 := setBounty s id (some { b with status := .Funded })
  let s2 := unreserveOp s1 b.proposer b.bond
  depositCreating s2 (AccountId.escrow id) b.value

/-- The `v.retain(..)` loop of `spend_funds`: processes the queue in
stored order, funding affordable entries, dropping entries whose bounty is
gone, and keeping missed entries in place. -/
def spendGo (budget : Balance) (queue : List BountyIndex) (s : State) :
    Balance × List BountyIndex × State :=
  match queue with
  | [] => (budget, [], s)
  | id :: rest =>
      match s.bounties id with
      | none => spendGo budget rest s
      | some b =>
          if b.value ≤ budget then
            spendGo (budget - b.value) rest (fundBounty id b s)
          else
            let r := spendGo budget rest s
            (r.1, id :: r.2.1, r.2.2)

/-- `spend_funds`: drains the approval queue and returns the remaining
budget together with the post-state. -/
def spend_funds (budget : Balance) (s : State) : Balance × State :=
  let r := spendGo budget s.approvals s
  (r.1, { r.2.2 with approvals := r.2.1 })

/-- One dispatchable call of the state machine (origin checks that do not
depend on storage are already resolved, as described above).  `spendFunds`
is the scheduler callback with its cycle budget. -/
inductive Op where
  | proposeBounty (proposer : AccountId) (value : Balance) (description : List Nat)
  | approveBounty (id : BountyIndex)
  | proposeCurator (id : BountyIndex) (curator : AccountId) (fee : Balance)
  | unassignCurator (maybe_sender : Option AccountId) (id : BountyIndex)
  | acceptCurator (signer : AccountId) (id : BountyIndex)
  | awardBounty (signer : AccountId) (id : BountyIndex) (beneficiary : AccountId)
  | claimBounty (id : BountyIndex)
  | closeBounty (id : BountyIndex)
  | extendBountyExpiry (signer : AccountId) (id : BountyIndex)
  | addSubbounty (signer : AccountId) (id : BountyIndex) (value : Balance) (description : List Nat)
  | proposeSubcurator (signer : AccountId) (id : BountyIndex) (sid : BountyIndex) (subcurator : AccountId) (fee : Balance)
  | acceptSubcurator (signer : AccountId) (id : BountyIndex) (sid : BountyIndex)
  | unassignSubcurator (maybe_sender : Option AccountId) (id : BountyIndex) (sid : BountyIndex)
  | awardSubbounty (signer : AccountId) (id : BountyIndex) (sid : BountyIndex) (beneficiary : AccountId)
  | claimSubbounty (id : BountyIndex) (sid : BountyIndex)
  | closeSubbounty (maybe_sender : Option AccountId) (id : BountyIndex) (sid : BountyIndex)
  | spendFunds (budget : Balance)

/-- Dispatch an operation at block `now` under configuration `cfg`. -/
def applyOp (cfg : Config) (now : BlockNum) (op : Op) (s : State) : Option Err × State :=
  match op with
  | .proposeBounty proposer value description => propose_bounty cfg proposer value description s
  | .approveBounty id => approve_bounty id s
  | .proposeCurator id curator fee => propose_curator id curator fee s
  | .unassignCurator maybe_sender id => unassign_curator now maybe_sender id s
  | .acceptCurator signer id => accept_curator cfg now signer id s
  | .awardBounty signer id beneficiary => award_bounty cfg now signer id beneficiary s
  | .claimBounty id => claim_bounty now id s
  | .closeBounty id => close_bounty id s
  | .extendBountyExpiry signer id => extend_bounty_expiry cfg now signer id s
  | .addSubbounty signer id value description => add_subbounty cfg signer id value description s
  | .proposeSubcurator signer id sid subcurator fee => propose_subcurator signer id sid subcurator fee s
  | .acceptSubcurator signer id sid => accept_subcurator cfg signer id sid s
  | .unassignSubcurator maybe_sender id sid => unassign_subcurator now maybe_sender id sid s
  | .awardSubbounty signer id sid beneficiary => award_subbounty cfg now signer id sid beneficiary s
  | .claimSubbounty id sid => claim_subbounty now id sid s
  | .closeSubbounty maybe_sender id sid => close_subbounty maybe_sender id sid s
  | .spendFunds budget => (none, (spend_funds budget s).2)

/-- One step of the system: some operation is dispatched at some block. -/
def Step (cfg : Config) (s s2 : State) : Prop :=
  ∃ now op, (applyOp cfg now op s).2 = s2

/-- Genesis: empty stores and counter; ledger balances are arbitrary. -/
def IsInit (s : State) : Prop :=
  s.bountyCount = 0 ∧ s.bounties = (fun _ => none) ∧
  s.subbounties = (fun _ _ => none) ∧ s.descriptions = (fun _ => none) ∧
  s.approvals = []

/-- States reachable by any sequence of operations from genesis. -/
def Reachable (cfg : Config) (s : State) : Prop :=
  ∃ s0, IsInit s0 ∧ Relation.ReflTransGen (Step cfg) s0 s

/-- Number of sub-bounty records currently stored under parent `pb`
(every stored sub id is below the global counter, see `KeysBound`). -/
def subCount (s : State) (pb : BountyIndex) : Nat :=
  ((Finset.range s.bountyCount).filter (fun sid => (s.subbounties pb sid).isSome)).card

/-- Sum of the `fee` fields of the sub-bounty records stored under `pb`. -/
def subFeeSum (s : State) (pb : BountyIndex) : Nat :=
  (Finset.range s.bountyCount).sum (fun sid =>
    match s.subbounties pb sid with
    | some sb => sb.fee
    | none => 0)

/-- All stored keys are below the global `BountyCount` counter. -/
def KeysBound (s : State) : Prop :=
  (∀ id, (s.bounties id).isSome → id < s.bountyCount) ∧
  (∀ pb sid, (s.subbounties pb sid).isSome → pb < s.bountyCount ∧ sid < s.bountyCount)

/-- The active-count invariant: each stored bounty counts exactly its
stored sub-bounty records. -/
def CountInv (s : State) : Prop :=
  ∀ pb b, s.bounties pb = some b → b.active_subbounty_count = subCount s pb

/-- A bounty in `PendingPayout` has no active sub-bounties. -/
def PendingZero (s : State) : Prop :=
  ∀ pb b, s.bounties pb = some b →
    ∀ c ben u, b.status = .PendingPayout c ben u → b.active_subbounty_count = 0

/-- The inductive invariant carried through the reachability proofs. -/
def Inv (s : State) : Prop := KeysBound s ∧ CountInv s ∧ PendingZero s

/-! Projection lemmas: which state fields each helper touches. -/

@[simp] theorem setBounty_bounties (s : State) (id : BountyIndex) (v : Option Bounty) :
    (setBounty s id v).bounties = updB s.bounties id v := rfl

@[simp] theorem setBounty_subbounties (s : State) (id : BountyIndex) (v : Option Bounty) :
    (setBounty s id v).subbounties = s.subbounties := rfl

@[simp] theorem setBounty_bountyCount (s : State) (id : BountyIndex) (v : Option Bounty) :
    (setBounty s id v).bountyCount = s.bountyCount := rfl

@[simp] theorem setBounty_approvals (s : State) (id : BountyIndex) (v : Option Bounty) :
    (setBounty s id v).approvals = s.approvals := rfl

@[simp] theorem setBounty_descriptions (s : State) (id : BountyIndex) (v : Option Bounty) :
    (setBounty s id v).descriptions = s.descriptions := rfl

@[simp] theorem setBounty_free (s : State) (id : BountyIndex) (v : Option Bounty) :
    (setBounty s id v).free = s.free := rfl

@[simp] theorem setBounty_reserved (s : State) (id : BountyIndex) (v : Option Bounty) :
    (setBounty s id v).reserved = s.reserved := rfl

@[simp] theorem setSubBounty_subbounties (s : State) (id sid : BountyIndex) (v : Option SubBounty) :
    (setSubBounty s id sid v).subbounties = updSub s.subbounties id sid v := rfl

@[simp] theorem setSubBounty_bounties (s : State) (id sid : BountyIndex) (v : Option SubBounty) :
    (setSubBounty s id sid v).bounties = s.bounties := rfl

@[simp] theorem setSubBounty_bountyCount (s : State) (id sid : BountyIndex) (v : Option SubBounty) :
    (setSubBounty s id sid v).bountyCount = s.bountyCount := rfl

@[simp] theorem setSubBounty_free (s : State) (id sid : BountyIndex) (v : Option SubBounty) :
    (setSubBounty s id sid v).free = s.free := rfl

@[simp] theorem setSubBounty_reserved (s : State) (id sid : BountyIndex) (v : Option SubBounty) :
    (setSubBounty s id sid v).reserved = s.reserved := rfl

@[simp] theorem setDesc_bounties (s : State) (id : BountyIndex) (v : Option (List Nat)) :
    (setDesc s id v).bounties = s.bounties := rfl

@[simp] theorem setDesc_subbounties (s : State) (id : BountyIndex) (v : Option (List Nat)) :
    (setDesc s id v).subbounties = s.subbounties := rfl

@[simp] theorem setDesc_bountyCount (s : State) (id : BountyIndex) (v : Option (List Nat)) :
    (setDesc s id v).bountyCount = s.bountyCount := rfl

@[simp] theorem setDesc_free (s : State) (id : BountyIndex) (v : Option (List Nat)) :
    (setDesc s id v).free = s.free := rfl

@[simp] theorem setDesc_reserved (s : State) (id : BountyIndex) (v : Option (List Nat)) :
    (setDesc s id v).reserved = s.reserved := rfl

@[simp] theorem unreserveOp_bounties (s : State) (w : AccountId) (a : Balance) :
    (unreserveOp s w a).bounties = s.bounties := rfl

@[simp] theorem unreserveOp_subbounties (s : State) (w : AccountId) (a : Balance) :
    (unreserveOp s w a).subbounties = s.subbounties := rfl

@[simp] theorem unreserveOp_bountyCount (s : State) (w : AccountId) (a : Balance) :
    (unreserveOp s w a).bountyCount = s.bountyCount := rfl

@[simp] theorem unreserveOp_descriptions (s : State) (w : AccountId) (a : Balance) :
    (unreserveOp s w a).descriptions = s.descriptions := rfl

@[simp] theorem unreserveOp_approvals (s : State) (w : AccountId) (a : Balance) :
    (unreserveOp s w a).approvals = s.approvals := rfl

@[simp] theorem slashReservedOp_bounties (s : State) (w : AccountId) (a : Balance) :
    (slashReservedOp s w a).bounties = s.bounties := rfl

@[simp] theorem slashReservedOp_subbounties (s : State) (w : AccountId) (a : Balance) :
    (slashReservedOp s w a).subbounties = s.subbounties := rfl

@[simp] theorem slashReservedOp_bountyCount (s : State) (w : AccountId) (a : Balance) :
    (slashReservedOp s w a).bountyCount = s.bountyCount := rfl

@[simp] theorem slashReservedOp_descriptions (s : State) (w : AccountId) (a : Balance) :
    (slashReservedOp s w a).descriptions = s.descriptions := rfl

@[simp] theorem slashReservedOp_approvals (s : State) (w : AccountId) (a : Balance) :
    (slashReservedOp s w a).approvals = s.approvals := rfl

@[simp] theorem slashReservedOp_free (s : State) (w : AccountId) (a : Balance) :
    (slashReservedOp s w a).free = s.free := rfl

@[simp] theorem depositCreating_bounties (s : State) (w : AccountId) (a : Balance) :
    (depositCreating s w a).bounties = s.bounties := rfl

@[simp] theorem depositCreating_subbounties (s : State) (w : AccountId) (a : Balance) :
    (depositCreating s w a).subbounties = s.subbounties := rfl

@[simp] theorem depositCreating_bountyCount (s : State) (w : AccountId) (a : Balance) :
    (depositCreating s w a).bountyCount = s.bountyCount := rfl

@[simp] theorem depositCreating_descriptions (s : State) (w : AccountId) (a : Balance) :
    (depositCreating s w a).descriptions = s.descriptions := rfl

@[simp] theorem depositCreating_approvals (s : State) (w : AccountId) (a : Balance) :
    (depositCreating s w a).approvals = s.approvals := rfl

@[simp] theorem depositCreating_reserved (s : State) (w : AccountId) (a : Balance) :
    (depositCreating s w a).reserved = s.reserved := rfl

@[simp] theorem transferBestEffort_bounties (s : State) (x y : AccountId) (a : Balance) :
    (transferBestEffort s x y a).bounties = s.bounties := by
  unfold transferBestEffort transferOp; split <;> rfl

@[simp] theorem transferBestEffort_subbounties (s : State) (x y : AccountId) (a : Balance) :
    (transferBestEffort s x y a).subbounties = s.subbounties := by
  unfold transferBestEffort transferOp; split <;> rfl

@[simp] theorem transferBestEffort_bountyCount (s : State) (x y : AccountId) (a : Balance) :
    (transferBestEffort s x y a).bountyCount = s.bountyCount := by
  unfold transferBestEffort transferOp; split <;> rfl

@[simp] theorem transferBestEffort_descriptions (s : State) (x y : AccountId) (a : Balance) :
    (transferBestEffort s x y a).descriptions = s.descriptions := by
  unfold transferBestEffort transferOp; split <;> rfl

@[simp] theorem transferBestEffort_approvals (s : State) (x y : AccountId) (a : Balance) :
    (transferBestEffort s x y a).approvals = s.approvals := by
  unfold transferBestEffort transferOp; split <;> rfl

@[simp] theorem transferBestEffort_reserved (s : State) (x y : AccountId) (a : Balance) :
    (transferBestEffort s x y a).reserved = s.reserved := by
  unfold transferBestEffort transferOp; split <;> rfl

theorem reserveOp_some (s : State) (w : AccountId) (a : Balance) (s1 : State)
    (h : reserveOp s w a = some s1) :
    s1.bounties = s.bounties ∧ s1.subbounties = s.subbounties ∧
    s1.bountyCount = s.bountyCount ∧ s1.descriptions = s.descriptions ∧
    s1.approvals = s.approvals := by
  unfold reserveOp at h
  split at h
  · cases h; exact ⟨rfl, rfl, rfl, rfl, rfl⟩
  · cases h

/-! Application lemmas for point updates. -/

theorem updB_self (f : BountyIndex → Option Bounty) (id : BountyIndex) (v : Option Bounty) :
    updB f id v id = v := by simp [updB]

theorem updB_other (f : BountyIndex → Option Bounty) (id id2 : BountyIndex) (v : Option Bounty)
    (h : id2 ≠ id) : updB f id v id2 = f id2 := by simp [updB, h]

theorem updSub_self (f : BountyIndex → BountyIndex → Option SubBounty) (pb sid : BountyIndex)
    (v : Option SubBounty) : updSub f pb sid v pb sid = by exact v := by simp [updSub]

theorem updSub_other (f : BountyIndex → BountyIndex → Option SubBounty) (pb sid pb2 sid2 : BountyIndex)
    (v : Option SubBounty) (h : ¬ (pb2 = pb ∧ sid2 = sid)) :
    updSub f pb sid v pb2 sid2 = f pb2 sid2 := by simp [updSub, h]

/-! Atomicity: every dispatchable either succeeds or returns the pre-state
untouched (the source validates before mutating, and `try_mutate_exists`
does not write back on error). -/

theorem propose_bounty_atomic (cfg : Config) (p : AccountId) (v : Balance)
    (d : List Nat) (s : State) :
    (propose_bounty cfg p v d s).1 = none ∨ (propose_bounty cfg p v d s).2 = s := by
  unfold propose_bounty
  dsimp only
  repeat' split
  all_goals simp

theorem approve_bounty_atomic (id : BountyIndex) (s : State) :
    (approve_bounty id s).1 = none ∨ (approve_bounty id s).2 = s := by
  unfold approve_bounty
  repeat' split
  all_goals simp

theorem propose_curator_atomic (id : BountyIndex) (c : AccountId) (f : Balance) (s : State) :
    (propose_curator id c f s).1 = none ∨ (propose_curator id c f s).2 = s := by
  unfold propose_curator
  repeat' split
  all_goals simp

theorem unassign_curator_atomic (now : BlockNum) (ms : Option AccountId)
    (id : BountyIndex) (s : State) :
    (unassign_curator now ms id s).1 = none ∨ (unassign_curator now ms id s).2 = s := by
  unfold unassign_curator
  repeat' split
  all_goals simp

theorem accept_curator_atomic (cfg : Config) (now : BlockNum) (g : AccountId)
    (id : BountyIndex) (s : State) :
    (accept_curator cfg now g id s).1 = none ∨ (accept_curator cfg now g id s).2 = s := by
  unfold accept_curator
  dsimp only
  repeat' split
  all_goals simp

theorem award_bounty_atomic (cfg : Config) (now : BlockNum) (g : AccountId)
    (id : BountyIndex) (ben : AccountId) (s : State) :
    (award_bounty cfg now g id ben s).1 = none ∨ (award_bounty cfg now g id ben s).2 = s := by
  unfold award_bounty
  repeat' split
  all_goals simp

theorem claim_bounty_atomic (now : BlockNum) (id : BountyIndex) (s : State) :
    (claim_bounty now id s).1 = none ∨ (claim_bounty now id s).2 = s := by
  unfold claim_bounty
  repeat' split
  all_goals simp

theorem close_bounty_atomic (id : BountyIndex) (s : State) :
    (close_bounty id s).1 = none ∨ (close_bounty id s).2 = s := by
  unfold close_bounty closeFinish
  repeat' split
  all_goals simp

theorem extend_bounty_expiry_atomic (cfg : Config) (now : BlockNum) (g : AccountId)
    (id : BountyIndex) (s : State) :
    (extend_bounty_expiry cfg now g id s).1 = none ∨
    (extend_bounty_expiry cfg now g id s).2 = s := by
  unfold extend_bounty_expiry
  repeat' split
  all_goals simp

theorem add_subbounty_atomic (cfg : Config) (g : AccountId) (id : BountyIndex)
    (v : Balance) (d : List Nat) (s : State) :
    (add_subbounty cfg g id v d s).1 = none ∨ (add_subbounty cfg g id v d s).2 = s := by
  unfold add_subbounty
  dsimp only
  repeat' split
  all_goals simp

theorem propose_subcurator_atomic (g : AccountId) (id sid : BountyIndex)
    (sc : AccountId) (f : Balance) (s : State) :
    (propose_subcurator g id sid sc f s).1 = none ∨
    (propose_subcurator g id sid sc f s).2 = s := by
  unfold propose_subcurator
  repeat' split
  all_goals simp

theorem accept_subcurator_atomic (cfg : Config) (g : AccountId) (id sid : BountyIndex)
    (s : State) :
    (accept_subcurator cfg g id sid s).1 = none ∨ (accept_subcurator cfg g id sid s).2 = s := by
  unfold accept_subcurator
  dsimp only
  repeat' split
  all_goals simp

theorem unassign_subcurator_atomic (now : BlockNum) (ms : Option AccountId)
    (id sid : BountyIndex) (s : State) :
    (unassign_subcurator now ms id sid s).1 = none ∨
    (unassign_subcurator now ms id sid s).2 = s := by
  unfold unassign_subcurator
  repeat' split
  all_goals simp

theorem award_subbounty_atomic (cfg : Config) (now : BlockNum) (g : AccountId)
    (id sid : BountyIndex) (ben : AccountId) (s : State) :
    (award_subbounty cfg now g id sid ben s).1 = none ∨
    (award_subbounty cfg now g id sid ben s).2 = s := by
  unfold award_subbounty
  repeat' split
  all_goals simp

theorem claim_subbounty_atomic (now : BlockNum) (id sid : BountyIndex) (s : State) :
    (claim_subbounty now id sid s).1 = none ∨ (claim_subbounty now id sid s).2 = s := by
  unfold claim_subbounty
  repeat' split
  all_goals simp

theorem impl_close_subbounty_atomic (id sid : BountyIndex) (s : State) :
    (impl_close_subbounty id sid s).1 = none ∨ (impl_close_subbounty id sid s).2 = s := by
  unfold impl_close_subbounty
  repeat' split
  all_goals simp

theorem close_subbounty_atomic (ms : Option AccountId) (id sid : BountyIndex) (s : State) :
    (close_subbounty ms id sid s).1 = none ∨ (close_subbounty ms id sid s).2 = s := by
  unfold close_subbounty
  repeat' split
  all_goals first
  | exact impl_close_subbounty_atomic _ _ _
  | simp

theorem applyOp_atomic (cfg : Config) (now : BlockNum) (op : Op) (s : State) :
    (applyOp cfg now op s).1 = none ∨ (applyOp cfg now op s).2 = s := by
  cases op with
  | proposeBounty p v d => exact propose_bounty_atomic cfg p v d s
  | approveBounty id => exact approve_bounty_atomic id s
  | proposeCurator id c f => exact propose_curator_atomic id c f s
  | unassignCurator ms id => exact unassign_curator_atomic now ms id s
  | acceptCurator g id => exact accept_curator_atomic cfg now g id s
  | awardBounty g id ben => exact award_bounty_atomic cfg now g id ben s
  | claimBounty id => exact claim_bounty_atomic now id s
  | closeBounty id => exact close_bounty_atomic id s
  | extendBountyExpiry g id => exact extend_bounty_expiry_atomic cfg now g id s
  | addSubbounty g id v d => exact add_subbounty_atomic cfg g id v d s
  | proposeSubcurator g id sid sc f => exact propose_subcurator_atomic g id sid sc f s
  | acceptSubcurator g id sid => exact accept_subcurator_atomic cfg g id sid s
  | unassignSubcurator ms id sid => exact unassign_subcurator_atomic now ms id sid s
  | awardSubbounty g id sid ben => exact award_subbounty_atomic cfg now g id sid ben s
  | claimSubbounty id sid => exact claim_subbounty_atomic now id sid s
  | closeSubbounty ms id sid => exact close_subbounty_atomic ms id sid s
  | spendFunds budget => exact Or.inl rfl

/-! Counting lemmas for `subCount` under the three shapes of sub-bounty
map update: in-place mutation, fresh insertion, deletion. -/

theorem subCount_eq_of_fields (s s2 : State) (hc : s2.bountyCount = s.bountyCount)
    (hs : s2.subbounties = s.subbounties) (pb : BountyIndex) :
    subCount s2 pb = subCount s pb := by
  unfold subCount
  rw [hc, hs]

theorem subCount_update_some (s s2 : State) (pb0 sid0 : BountyIndex) (old v : SubBounty)
    (hold : s.subbounties pb0 sid0 = some old)
    (hc : s2.bountyCount = s.bountyCount)
    (hs : s2.subbounties = updSub s.subbounties pb0 sid0 (some v)) (pb : BountyIndex) :
    subCount s2 pb = subCount s pb := by
  unfold subCount
  rw [hc, hs]
  congr 1
  apply Finset.filter_congr
  intro x _
  by_cases hx : pb = pb0 ∧ x = sid0
  · obtain ⟨h1, h2⟩ := hx
    subst h1; subst h2
    simp [updSub, hold]
  · simp [updSub, hx]

theorem subCount_insert_fresh (s s2 : State) (pb0 : BountyIndex) (v : SubBounty)
    (hbound : ∀ pb sid, (s.subbounties pb sid).isSome = true → sid < s.bountyCount)
    (hc : s2.bountyCount = s.bountyCount + 1)
    (hs : s2.subbounties = updSub s.subbounties pb0 s.bountyCount (some v)) :
    subCount s2 pb0 = subCount s pb0 + 1 ∧
    ∀ pb, pb ≠ pb0 → subCount s2 pb = subCount s pb := by
  have hnone : ∀ pb, s.subbounties pb s.bountyCount = none := by
    intro pb
    cases hx : s.subbounties pb s.bountyCount with
    | none => rfl
    | some w =>
        exact absurd (hbound pb s.bountyCount (by simp [hx])) (lt_irrefl _)
  have hfilter : ∀ pb, (Finset.range s.bountyCount).filter
      (fun sid => (s2.subbounties pb sid).isSome) =
      (Finset.range s.bountyCount).filter (fun sid => (s.subbounties pb sid).isSome) := by
    intro pb
    apply Finset.filter_congr
    intro x hx
    rw [Finset.mem_range] at hx
    rw [hs]
    have hne : ¬ (pb = pb0 ∧ x = s.bountyCount) := by
      rintro ⟨h1, h2⟩
      rw [h2] at hx
      exact absurd hx (lt_irrefl _)
    simp [updSub, hne]
  constructor
  · unfold subCount
    rw [hc, Finset.range_succ, Finset.filter_insert]
    have hmem : (s2.subbounties pb0 s.bountyCount).isSome = true := by
      rw [hs]; simp [updSub]
    rw [if_pos hmem]
    have hnotmem : s.bountyCount ∉ (Finset.range s.bountyCount).filter
        (fun sid => (s2.subbounties pb0 sid).isSome) := by
      intro hmem2
      have h3 := Finset.mem_of_mem_filter _ hmem2
      rw [Finset.mem_range] at h3
      exact absurd h3 (lt_irrefl _)
    rw [Finset.card_insert_of_not_mem hnotmem]
    rw [hfilter pb0]
  · intro pb hpb
    unfold subCount
    rw [hc, Finset.range_succ, Finset.filter_insert]
    have hnot : ¬ (s2.subbounties pb s.bountyCount).isSome = true := by
      rw [hs]
      have hne : ¬ (pb = pb0 ∧ s.bountyCount = s.bountyCount) := by
        rintro ⟨h1, _⟩; exact hpb h1
      simp [updSub, hne, hnone pb, hpb]
    rw [if_neg hnot]
    rw [hfilter pb]

theorem subCount_delete (s s2 : State) (pb0 sid0 : BountyIndex) (old : SubBounty)
    (hold : s.subbounties pb0 sid0 = some old)
    (hsid : sid0 < s.bountyCount)
    (hc : s2.bountyCount = s.bountyCount)
    (hs : s2.subbounties = updSub s.subbounties pb0 sid0 none) :
    subCount s2 pb0 = subCount s pb0 - 1 ∧ 1 ≤ subCount s pb0 ∧
    ∀ pb, pb ≠ pb0 → subCount s2 pb = subCount s pb := by
  have hmem : sid0 ∈ (Finset.range s.bountyCount).filter
      (fun sid => (s.subbounties pb0 sid).isSome) := by
    rw [Finset.mem_filter, Finset.mem_range]
    exact ⟨hsid, by simp [hold]⟩
  refine ⟨?_, ?_, ?_⟩
  · unfold subCount
    rw [hc]
    have hset : (Finset.range s.bountyCount).filter
        (fun sid => (s2.subbounties pb0 sid).isSome) =
        ((Finset.range s.bountyCount).filter
          (fun sid => (s.subbounties pb0 sid).isSome)).erase sid0 := by
      ext x
      rw [Finset.mem_erase, Finset.mem_filter, Finset.mem_filter]
      constructor
      · rintro ⟨hx, hsome⟩
        rw [hs] at hsome
        by_cases hx0 : x = sid0
        · subst hx0; simp [updSub] at hsome
        · rw [updSub_other _ _ _ _ _ _ (by intro hAnd; exact hx0 hAnd.2)] at hsome
          exact ⟨hx0, hx, hsome⟩
      · rintro ⟨hx0, hx, hsome⟩
        rw [hs]
        rw [updSub_other _ _ _ _ _ _ (by intro hAnd; exact hx0 hAnd.2)]
        exact ⟨hx, hsome⟩
    rw [hset, Finset.card_erase_of_mem hmem]
  · have := Finset.card_pos.mpr ⟨sid0, hmem⟩
    unfold subCount
    omega
  · intro pb hpb
    unfold subCount
    rw [hc]
    congr 1
    apply Finset.filter_congr
    intro x _
    rw [hs]
    rw [updSub_other _ _ _ _ _ _ (by intro hAnd; exact hpb hAnd.1)]

/-! Field-level invariant preservation lemmas: each op's post-state is
characterised by its `bountyCount`, `bounties` and `subbounties` fields. -/

theorem Inv_mk_congr (s s2 : State)
    (hc : s2.bountyCount = s.bountyCount)
    (hb : s2.bounties = s.bounties)
    (hs : s2.subbounties = s.subbounties)
    (hInv : Inv s) : Inv s2 := by
  obtain ⟨⟨hk1, hk2⟩, hcnt, hpend⟩ := hInv
  refine ⟨⟨?_, ?_⟩, ?_, ?_⟩
  · intro id hid; rw [hb] at hid; rw [hc]; exact hk1 id hid
  · intro pb sid hsid; rw [hs] at hsid; rw [hc]; exact hk2 pb sid hsid
  · intro pb b hpb
    rw [hb] at hpb
    rw [subCount_eq_of_fields s s2 hc hs pb]
    exact hcnt pb b hpb
  · intro pb b hpb; rw [hb] at hpb; exact hpend pb b hpb

theorem Inv_mk_updateBounty (s s2 : State) (id : BountyIndex) (b b2 : Bounty)
    (hbid : s.bounties id = some b)
    (hc : s2.bountyCount = s.bountyCount)
    (hb : s2.bounties = updB s.bounties id (some b2))
    (hs : s2.subbounties = s.subbounties)
    (hcnt : b2.active_subbounty_count = b.active_subbounty_count)
    (hpend : ∀ c ben u, b2.status = .PendingPayout c ben u → b2.active_subbounty_count = 0)
    (hInv : Inv s) : Inv s2 := by
  obtain ⟨⟨hk1, hk2⟩, hcount, hpd⟩ := hInv
  refine ⟨⟨?_, ?_⟩, ?_, ?_⟩
  · intro i hi
    rw [hb] at hi
    rw [hc]
    by_cases h : i = id
    · subst h; exact hk1 i (by simp [hbid])
    · rw [updB_other _ _ _ _ h] at hi; exact hk1 i hi
  · intro pb sid hsid; rw [hs] at hsid; rw [hc]; exact hk2 pb sid hsid
  · intro pb bb hpb
    rw [hb] at hpb
    rw [subCount_eq_of_fields s s2 hc hs pb]
    by_cases h : pb = id
    · subst h
      rw [updB_self] at hpb
      cases hpb
      rw [hcnt]
      exact hcount pb b hbid
    · rw [updB_other _ _ _ _ h] at hpb
      exact hcount pb bb hpb
  · intro pb bb hpb
    rw [hb] at hpb
    by_cases h : pb = id
    · subst h
      rw [updB_self] at hpb
      cases hpb
      exact hpend
    · rw [updB_other _ _ _ _ h] at hpb
      exact hpd pb bb hpb

theorem Inv_mk_deleteBounty (s s2 : State) (id : BountyIndex)
    (hc : s2.bountyCount = s.bountyCount)
    (hb : s2.bounties = updB s.bounties id none)
    (hs : s2.subbounties = s.subbounties)
    (hInv : Inv s) : Inv s2 := by
  obtain ⟨⟨hk1, hk2⟩, hcount, hpd⟩ := hInv
  refine ⟨⟨?_, ?_⟩, ?_, ?_⟩
  · intro i hi
    rw [hb] at hi
    rw [hc]
    by_cases h : i = id
    · subst h; rw [updB_self] at hi; cases hi
    · rw [updB_other _ _ _ _ h] at hi; exact hk1 i hi
  · intro pb sid hsid; rw [hs] at hsid; rw [hc]; exact hk2 pb sid hsid
  · intro pb bb hpb
    rw [hb] at hpb
    rw [subCount_eq_of_fields s s2 hc hs pb]
    by_cases h : pb = id
    · subst h; rw [updB_self] at hpb; cases hpb
    · rw [updB_other _ _ _ _ h] at hpb
      exact hcount pb bb hpb
  · intro pb bb hpb
    rw [hb] at hpb
    by_cases h : pb = id
    · subst h; rw [updB_self] at hpb; cases hpb
    · rw [updB_other _ _ _ _ h] at hpb
      exact hpd pb bb hpb

theorem Inv_mk_insertBounty (s s2 : State) (b : Bounty)
    (hc : s2.bountyCount = s.bountyCount + 1)
    (hb : s2.bounties = updB s.bounties s.bountyCount (some b))
    (hs : s2.subbounties = s.subbounties)
    (hcount0 : b.active_subbounty_count = 0)
    (hInv : Inv s) : Inv s2 := by
  obtain ⟨⟨hk1, hk2⟩, hcount, hpd⟩ := hInv
  have hsubCount : ∀ pb, subCount s2 pb =
      ((Finset.range s.bountyCount).filter
        (fun sid => (s.subbounties pb sid).isSome)).card := by
    intro pb
    unfold subCount
    rw [hc, hs, Finset.range_succ, Finset.filter_insert]
    have hnone : s.subbounties pb s.bountyCount = none := by
      cases hx : s.subbounties pb s.bountyCount with
      | none => rfl
      | some w =>
          exact absurd ((hk2 pb s.bountyCount (by simp [hx])).2) (lt_irrefl _)
    simp [hnone]
  refine ⟨⟨?_, ?_⟩, ?_, ?_⟩
  · intro i hi
    rw [hb] at hi
    rw [hc]
    by_cases h : i = s.bountyCount
    · exact lt_of_eq_of_lt h (Nat.lt_succ_self _)
    · rw [updB_other _ _ _ _ h] at hi
      exact Nat.lt_succ_of_lt (hk1 i hi)
  · intro pb sid hsid
    rw [hs] at hsid
    rw [hc]
    have h2 := hk2 pb sid hsid
    exact ⟨Nat.lt_succ_of_lt h2.1, Nat.lt_succ_of_lt h2.2⟩
  · intro pb bb hpb
    rw [hb] at hpb
    rw [hsubCount pb]
    by_cases h : pb = s.bountyCount
    · rw [h, updB_self] at hpb
      cases hpb
      rw [hcount0]
      symm
      rw [Finset.card_eq_zero, Finset.filter_eq_empty_iff]
      intro x hx
      cases hxx : s.subbounties pb x with
      | none => simp [hxx]
      | some w =>
          have hlt := (hk2 pb x (by simp [hxx])).1
          rw [h] at hlt
          exact absurd hlt (lt_irrefl _)
    · rw [updB_other _ _ _ _ h] at hpb
      exact hcount pb bb hpb
  · intro pb bb hpb
    rw [hb] at hpb
    by_cases h : pb = s.bountyCount
    · rw [h, updB_self] at hpb
      cases hpb
      intro c ben u _
      exact hcount0
    · rw [updB_other _ _ _ _ h] at hpb
      exact hpd pb bb hpb

theorem Inv_mk_updateSub (s s2 : State) (pb0 sid0 : BountyIndex) (old v : SubBounty)
    (hold : s.subbounties pb0 sid0 = some old)
    (hc : s2.bountyCount = s.bountyCount)
    (hb : s2.bounties = s.bounties)
    (hs : s2.subbounties = updSub s.subbounties pb0 sid0 (some v))
    (hInv : Inv s) : Inv s2 := by
  obtain ⟨⟨hk1, hk2⟩, hcount, hpd⟩ := hInv
  refine ⟨⟨?_, ?_⟩, ?_, ?_⟩
  · intro i hi; rw [hb] at hi; rw [hc]; exact hk1 i hi
  · intro pb sid hsid
    rw [hs] at hsid
    rw [hc]
    by_cases h : pb = pb0 ∧ sid = sid0
    · obtain ⟨h1, h2⟩ := h
      subst h1; subst h2
      exact hk2 pb sid (by simp [hold])
    · rw [updSub_other _ _ _ _ _ _ h] at hsid
      exact hk2 pb sid hsid
  · intro pb bb hpb
    rw [hb] at hpb
    rw [subCount_update_some s s2 pb0 sid0 old v hold hc hs pb]
    exact hcount pb bb hpb
  · intro pb bb hpb
    rw [hb] at hpb
    exact hpd pb bb hpb

theorem Inv_mk_addSub (s s2 : State) (id : BountyIndex) (b b2 : Bounty) (v : SubBounty)
    (hbid : s.bounties id = some b)
    (hc : s2.bountyCount = s.bountyCount + 1)
    (hb : s2.bounties = updB s.bounties id (some b2))
    (hs : s2.subbounties = updSub s.subbounties id s.bountyCount (some v))
    (hb2cnt : b2.active_subbounty_count = b.active_subbounty_count + 1)
    (hb2st : b2.status = b.status)
    (hnp : ∀ c ben u, b.status ≠ .PendingPayout c ben u)
    (hInv : Inv s) : Inv s2 := by
  obtain ⟨⟨hk1, hk2⟩, hcount, hpd⟩ := hInv
  obtain ⟨hself, hother⟩ := subCount_insert_fresh s s2 id v
    (fun pb sid hsid => (hk2 pb sid hsid).2) hc hs
  refine ⟨⟨?_, ?_⟩, ?_, ?_⟩
  · intro i hi
    rw [hb] at hi
    rw [hc]
    by_cases h : i = id
    · rw [h, updB_self] at hi
      have hlt := hk1 id (by simp [hbid])
      exact lt_of_eq_of_lt h (Nat.lt_succ_of_lt hlt)
    · rw [updB_other _ _ _ _ h] at hi
      exact Nat.lt_succ_of_lt (hk1 i hi)
  · intro pb sid hsid
    rw [hs] at hsid
    rw [hc]
    by_cases h : pb = id ∧ sid = s.bountyCount
    · obtain ⟨h1, h2⟩ := h
      have hlt := hk1 id (by simp [hbid])
      constructor
      · exact lt_of_eq_of_lt h1 (Nat.lt_succ_of_lt hlt)
      · exact lt_of_eq_of_lt h2 (Nat.lt_succ_self _)
    · rw [updSub_other _ _ _ _ _ _ h] at hsid
      have h2 := hk2 pb sid hsid
      exact ⟨Nat.lt_succ_of_lt h2.1, Nat.lt_succ_of_lt h2.2⟩
  · intro pb bb hpb
    rw [hb] at hpb
    by_cases h : pb = id
    · rw [h, updB_self] at hpb
      cases hpb
      rw [h, hself, hb2cnt, hcount id b hbid]
    · rw [updB_other _ _ _ _ h] at hpb
      rw [hother pb h]
      exact hcount pb bb hpb
  · intro pb bb hpb
    rw [hb] at hpb
    by_cases h : pb = id
    · rw [h, updB_self] at hpb
      cases hpb
      intro c ben u hst
      rw [hb2st] at hst
      exact absurd hst (hnp c ben u)
    · rw [updB_other _ _ _ _ h] at hpb
      exact hpd pb bb hpb

theorem Inv_mk_removeSub (s s2 : State) (id sid0 : BountyIndex) (old : SubBounty)
    (b b2 : Bounty)
    (hold : s.subbounties id sid0 = some old)
    (hbid : s.bounties id = some b)
    (hc : s2.bountyCount = s.bountyCount)
    (hb : s2.bounties = updB s.bounties id (some b2))
    (hs : s2.subbounties = updSub s.subbounties id sid0 none)
    (hb2cnt : b2.active_subbounty_count = b.active_subbounty_count - 1)
    (hb2st : b2.status = b.status)
    (hInv : Inv s) : Inv s2 := by
  obtain ⟨⟨hk1, hk2⟩, hcount, hpd⟩ := hInv
  have hsid : sid0 < s.bountyCount := (hk2 id sid0 (by simp [hold])).2
  obtain ⟨hself, hpos, hother⟩ := subCount_delete s s2 id sid0 old hold hsid hc hs
  refine ⟨⟨?_, ?_⟩, ?_, ?_⟩
  · intro i hi
    rw [hb] at hi
    rw [hc]
    by_cases h : i = id
    · rw [h]; exact hk1 id (by simp [hbid])
    · rw [updB_other _ _ _ _ h] at hi; exact hk1 i hi
  · intro pb sid hsid2
    rw [hs] at hsid2
    rw [hc]
    by_cases h : pb = id ∧ sid = sid0
    · rw [h.1, h.2] at hsid2
      simp [updSub] at hsid2
    · rw [updSub_other _ _ _ _ _ _ h] at hsid2
      exact hk2 pb sid hsid2
  · intro pb bb hpb
    rw [hb] at hpb
    by_cases h : pb = id
    · rw [h, updB_self] at hpb
      cases hpb
      rw [h, hself, hb2cnt, hcount id b hbid]
    · rw [updB_other _ _ _ _ h] at hpb
      rw [hother pb h]
      exact hcount pb bb hpb
  · intro pb bb hpb
    rw [hb] at hpb
    by_cases h : pb = id
    · rw [h, updB_self] at hpb
      cases hpb
      intro c ben u hst
      rw [hb2st] at hst
      have hzero := hpd id b hbid c ben u hst
      have hcnt2 := hcount id b hbid
      have hge := hpos
      rw [← hcnt2] at hge
      rw [hb2cnt]
      rw [hzero] at hge
      cases hge
    · rw [updB_other _ _ _ _ h] at hpb
      exact hpd pb bb hpb

theorem Inv_mk_removeSub_noParent (s s2 : State) (id sid0 : BountyIndex) (old : SubBounty)
    (hold : s.subbounties id sid0 = some old)
    (hbid : s.bounties id = none)
    (hc : s2.bountyCount = s.bountyCount)
    (hb : s2.bounties = s.bounties)
    (hs : s2.subbounties = updSub s.subbounties id sid0 none)
    (hInv : Inv s) : Inv s2 := by
  obtain ⟨⟨hk1, hk2⟩, hcount, hpd⟩ := hInv
  have hsid : sid0 < s.bountyCount := (hk2 id sid0 (by simp [hold])).2
  obtain ⟨hself, hpos, hother⟩ := subCount_delete s s2 id sid0 old hold hsid hc hs
  refine ⟨⟨?_, ?_⟩, ?_, ?_⟩
  · intro i hi; rw [hb] at hi; rw [hc]; exact hk1 i hi
  · intro pb sid hsid2
    rw [hs] at hsid2
    rw [hc]
    by_cases h : pb = id ∧ sid = sid0
    · obtain ⟨h1, h2⟩ := h
      subst h1; subst h2
      simp [updSub] at hsid2
    · rw [updSub_other _ _ _ _ _ _ h] at hsid2
      exact hk2 pb sid hsid2
  · intro pb bb hpb
    rw [hb] at hpb
    by_cases h : pb = id
    · subst h
      rw [hbid] at hpb
      cases hpb
    · rw [hother pb h]
      exact hcount pb bb hpb
  · intro pb bb hpb
    rw [hb] at hpb
    exact hpd pb bb hpb

/-! Per-operation invariant preservation. -/

theorem ensure_bounty_active_ok (s : State) (id : BountyIndex) (mc : AccountId)
    (ud : BlockNum) (h : ensure_bounty_active s id = .ok (mc, ud)) :
    ∃ b, s.bounties id = some b ∧ b.status = .Active mc ud := by
  unfold ensure_bounty_active at h
  cases hbid : s.bounties id with
  | none => rw [hbid] at h; cases h
  | some b =>
      rw [hbid] at h
      dsimp only at h
      cases hst : b.status with
      | Active c u =>
          rw [hst] at h
          simp only [Except.ok.injEq, Prod.mk.injEq] at h
          obtain ⟨h1, h2⟩ := h
          exact ⟨b, rfl, by rw [hst, h1, h2]⟩
      | Proposed => rw [hst] at h; cases h
      | Approved => rw [hst] at h; cases h
      | Funded => rw [hst] at h; cases h
      | CuratorProposed c => rw [hst] at h; cases h
      | PendingPayout c bn u => rw [hst] at h; cases h

theorem Inv_propose_bounty (cfg : Config) (p : AccountId) (v : Balance) (d : List Nat)
    (s : State) (hInv : Inv s) : Inv (propose_bounty cfg p v d s).2 := by
  unfold propose_bounty
  dsimp only
  split
  · exact hInv
  split
  · exact hInv
  cases hr : reserveOp s p (cfg.bountyDepositBase + cfg.dataDepositPerByte * d.length) with
  | none => exact hInv
  | some s1 =>
      obtain ⟨hb1, hs1, hc1, _, _⟩ := reserveOp_some _ _ _ _ hr
      dsimp only
      refine Inv_mk_insertBounty s _
        { proposer := p, value := v, fee := 0, curator_deposit := 0,
          bond := cfg.bountyDepositBase + cfg.dataDepositPerByte * d.length,
          status := .Proposed, active_subbounty_count := 0 } rfl ?_ ?_ rfl hInv
      · show updB s1.bounties s.bountyCount _ = _
        rw [hb1]
      · exact hs1

theorem Inv_approve_bounty (id : BountyIndex) (s : State) (hInv : Inv s) :
    Inv (approve_bounty id s).2 := by
  unfold approve_bounty
  cases hbid : s.bounties id with
  | none => exact hInv
  | some b =>
      dsimp only
      split
      · refine Inv_mk_updateBounty s _ id b { b with status := .Approved }
          hbid rfl rfl rfl rfl ?_ hInv
        intro c ben u hst
        cases hst
      · exact hInv

theorem Inv_propose_curator (id : BountyIndex) (c : AccountId) (f : Balance)
    (s : State) (hInv : Inv s) : Inv (propose_curator id c f s).2 := by
  unfold propose_curator
  cases hbid : s.bounties id with
  | none => exact hInv
  | some b =>
      dsimp only
      repeat' split
      all_goals try exact hInv
      all_goals refine Inv_mk_updateBounty s _ id b ({ b with status := .CuratorProposed c, fee := f }) hbid rfl rfl rfl rfl ?_ hInv
      all_goals intro cc ben u hst
      all_goals cases hst

theorem Inv_unassign_curator (now : BlockNum) (ms : Option AccountId) (id : BountyIndex)
    (s : State) (hInv : Inv s) : Inv (unassign_curator now ms id s).2 := by
  unfold unassign_curator
  cases hbid : s.bounties id with
  | none => exact hInv
  | some b =>
      dsimp only
      repeat' split
      all_goals try exact hInv
      all_goals first
        | (refine Inv_mk_updateBounty s _ id b ({ b with status := .Funded }) hbid rfl rfl rfl rfl ?_ hInv
           intro cc ben u hst
           cases hst)
        | (refine Inv_mk_updateBounty s _ id b ({ b with curator_deposit := 0, status := .Funded }) hbid rfl rfl rfl rfl ?_ hInv
           intro cc ben u hst
           cases hst)

theorem Inv_accept_curator (cfg : Config) (now : BlockNum) (g : AccountId)
    (id : BountyIndex) (s : State) (hInv : Inv s) : Inv (accept_curator cfg now g id s).2 := by
  unfold accept_curator
  cases hbid : s.bounties id with
  | none => exact hInv
  | some b =>
      dsimp only
      cases hst : b.status with
      | CuratorProposed curator =>
          dsimp only
          split
          · cases hr : reserveOp s curator (ppmMul cfg.bountyCuratorDepositPpm b.fee) with
            | none => exact hInv
            | some s1 =>
                obtain ⟨hb1, hs1, hc1, _, _⟩ := reserveOp_some _ _ _ _ hr
                dsimp only
                refine Inv_mk_updateBounty s _ id b ({ b with curator_deposit := ppmMul cfg.bountyCuratorDepositPpm b.fee, status := .Active curator (now + cfg.bountyUpdatePeriod) }) hbid ?_ ?_ ?_ rfl ?_ hInv
                · exact hc1
                · show updB s1.bounties id _ = _
                  rw [hb1]
                · exact hs1
                · intro cc ben u h2
                  cases h2
          · exact hInv
      | Proposed => exact hInv
      | Approved => exact hInv
      | Funded => exact hInv
      | Active c u => exact hInv
      | PendingPayout c bn u => exact hInv

theorem Inv_award_bounty (cfg : Config) (now : BlockNum) (g : AccountId)
    (id : BountyIndex) (ben : AccountId) (s : State) (hInv : Inv s) :
    Inv (award_bounty cfg now g id ben s).2 := by
  unfold award_bounty
  cases hbid : s.bounties id with
  | none => exact hInv
  | some b =>
      dsimp only
      split
      · exact hInv
      next hcnt0 =>
        repeat' split
        all_goals try exact hInv
        refine Inv_mk_updateBounty s _ id b ({ b with status := .PendingPayout g ben (now + cfg.bountyDepositPayoutDelay) }) hbid rfl rfl rfl rfl ?_ hInv
        intro cc bn u _
        simpa using hcnt0

theorem Inv_claim_bounty (now : BlockNum) (id : BountyIndex) (s : State) (hInv : Inv s) :
    Inv (claim_bounty now id s).2 := by
  unfold claim_bounty
  cases hbid : s.bounties id with
  | none => exact hInv
  | some b =>
      dsimp only
      cases hst : b.status with
      | PendingPayout c ben u =>
          dsimp only
          split
          · refine Inv_mk_deleteBounty s _ id ?_ ?_ ?_ hInv
            · simp
            · simp
            · simp
          · exact hInv
      | Proposed => exact hInv
      | Approved => exact hInv
      | Funded => exact hInv
      | CuratorProposed c => exact hInv
      | Active c u => exact hInv

theorem Inv_closeFinish (id : BountyIndex) (s : State) (hInv : Inv s) :
    Inv (closeFinish id s).2 := by
  refine Inv_mk_deleteBounty s _ id ?_ ?_ ?_ hInv
  · simp [closeFinish]
  · simp [closeFinish]
  · simp [closeFinish]

theorem Inv_close_bounty (id : BountyIndex) (s : State) (hInv : Inv s) :
    Inv (close_bounty id s).2 := by
  unfold close_bounty
  cases hbid : s.bounties id with
  | none => exact hInv
  | some b =>
      dsimp only
      split
      · exact hInv
      cases hst : b.status with
      | Proposed =>
          refine Inv_mk_deleteBounty s _ id rfl ?_ rfl hInv
          show updB _ id none = _
          rfl
      | Approved => exact hInv
      | Funded => exact Inv_closeFinish id s hInv
      | CuratorProposed c => exact Inv_closeFinish id s hInv
      | Active c ud =>
          exact Inv_closeFinish id _ (Inv_mk_congr s _ rfl rfl rfl hInv)
      | PendingPayout c ben u => exact hInv

theorem Inv_extend_bounty_expiry (cfg : Config) (now : BlockNum) (g : AccountId)
    (id : BountyIndex) (s : State) (hInv : Inv s) :
    Inv (extend_bounty_expiry cfg now g id s).2 := by
  unfold extend_bounty_expiry
  cases hbid : s.bounties id with
  | none => exact hInv
  | some b =>
      dsimp only
      cases hst : b.status with
      | Active curator ud =>
          dsimp only
          split
          · refine Inv_mk_updateBounty s _ id b ({ b with status := .Active curator (max (now + cfg.bountyUpdatePeriod) ud) }) hbid rfl rfl rfl rfl ?_ hInv
            intro cc ben u h2
            cases h2
          · exact hInv
      | Proposed => exact hInv
      | Approved => exact hInv
      | Funded => exact hInv
      | CuratorProposed c => exact hInv
      | PendingPayout c bn u => exact hInv

theorem Inv_add_subbounty (cfg : Config) (g : AccountId) (id : BountyIndex)
    (v : Balance) (d : List Nat) (s : State) (hInv : Inv s) :
    Inv (add_subbounty cfg g id v d s).2 := by
  unfold add_subbounty
  cases hbid : s.bounties id with
  | none => exact hInv
  | some b =>
      dsimp only
      cases hst : b.status with
      | Active curator ud =>
          dsimp only
          repeat' split
          all_goals try exact hInv
          refine Inv_mk_addSub s _ id b ({ b with status := BountyStatus.Active curator ud, active_subbounty_count := b.active_subbounty_count + 1 }) ({ value := v, fee := 0, curator_deposit := 0, status := .Added }) hbid ?_ ?_ ?_ rfl hst.symm ?_ hInv
          · simp
          · simp
          · simp
          · intro cc ben u h2
            rw [hst] at h2
            cases h2
      | Proposed => exact hInv
      | Approved => exact hInv
      | Funded => exact hInv
      | CuratorProposed c => exact hInv
      | PendingPayout c bn u => exact hInv

theorem Inv_propose_subcurator (g : AccountId) (id sid : BountyIndex)
    (sc : AccountId) (f : Balance) (s : State) (hInv : Inv s) :
    Inv (propose_subcurator g id sid sc f s).2 := by
  unfold propose_subcurator
  cases hact : ensure_bounty_active s id with
  | error e => exact hInv
  | ok pr =>
      obtain ⟨mc, ud⟩ := pr
      obtain ⟨b, hbid, hst⟩ := ensure_bounty_active_ok s id mc ud hact
      dsimp only
      cases hsub : s.subbounties id sid with
      | none => exact hInv
      | some sb =>
          dsimp only
          split
          · split
            · split
              · cases hpar : s.bounties id with
                | none =>
                    dsimp only
                    exact Inv_mk_updateSub s _ id sid sb ({ sb with fee := f, status := .SubCuratorProposed sc }) hsub rfl rfl rfl hInv
                | some bb =>
                    dsimp only
                    split
                    · dsimp only
                      have hmid : Inv (setBounty s id (some { bb with fee := bb.fee - f })) := by
                        refine Inv_mk_updateBounty s _ id bb ({ bb with fee := bb.fee - f }) hpar rfl rfl rfl rfl ?_ hInv
                        intro cc ben u h2
                        have h3 : bb.status = BountyStatus.PendingPayout cc ben u := h2
                        rw [hpar] at hbid
                        injection hbid with hb4
                        rw [← hb4] at hst
                        rw [hst] at h3
                        cases h3
                      exact Inv_mk_updateSub (setBounty s id (some { bb with fee := bb.fee - f })) _ id sid sb ({ sb with fee := f, status := .SubCuratorProposed sc }) hsub rfl rfl rfl hmid
                    · exact hInv
              · exact hInv
            · exact hInv
          · exact hInv

theorem Inv_accept_subcurator (cfg : Config) (g : AccountId) (id sid : BountyIndex)
    (s : State) (hInv : Inv s) : Inv (accept_subcurator cfg g id sid s).2 := by
  unfold accept_subcurator
  cases hact : ensure_bounty_active s id with
  | error e => exact hInv
  | ok pr =>
      dsimp only
      cases hsub : s.subbounties id sid with
      | none => exact hInv
      | some sb =>
          dsimp only
          cases hst : sb.status with
          | SubCuratorProposed sc =>
              dsimp only
              split
              · cases hr : reserveOp s sc (ppmMul cfg.bountyCuratorDepositPpm sb.fee) with
                | none => exact hInv
                | some s1 =>
                    obtain ⟨hb1, hs1, hc1, _, _⟩ := reserveOp_some _ _ _ _ hr
                    dsimp only
                    refine Inv_mk_updateSub s _ id sid sb ({ sb with curator_deposit := ppmMul cfg.bountyCuratorDepositPpm sb.fee, status := .Active sc }) hsub ?_ ?_ ?_ hInv
                    · exact hc1
                    · exact hb1
                    · show updSub s1.subbounties _ _ _ = _
                      rw [hs1]
              · exact hInv
          | Added => exact hInv
          | Active sc => exact hInv
          | PendingPayout sc bn u => exact hInv

theorem Inv_unassign_subcurator (now : BlockNum) (ms : Option AccountId)
    (id sid : BountyIndex) (s : State) (hInv : Inv s) :
    Inv (unassign_subcurator now ms id sid s).2 := by
  unfold unassign_subcurator
  cases hact : ensure_bounty_active s id with
  | error e => exact hInv
  | ok pr =>
      obtain ⟨mc, ud⟩ := pr
      dsimp only
      cases hsub : s.subbounties id sid with
      | none => exact hInv
      | some sb =>
          dsimp only
          repeat' split
          all_goals try exact hInv
          all_goals first
            | exact Inv_mk_updateSub s _ id sid sb ({ sb with status := .Added }) hsub rfl rfl rfl hInv
            | exact Inv_mk_updateSub s _ id sid sb ({ sb with curator_deposit := 0, status := .Added }) hsub rfl rfl rfl hInv

theorem Inv_award_subbounty (cfg : Config) (now : BlockNum) (g : AccountId)
    (id sid : BountyIndex) (ben : AccountId) (s : State) (hInv : Inv s) :
    Inv (award_subbounty cfg now g id sid ben s).2 := by
  unfold award_subbounty
  cases hact : ensure_bounty_active s id with
  | error e => exact hInv
  | ok pr =>
      dsimp only
      cases hsub : s.subbounties id sid with
      | none => exact hInv
      | some sb =>
          dsimp only
          repeat' split
          all_goals try exact hInv
          exact Inv_mk_updateSub s _ id sid sb ({ sb with status := .PendingPayout g ben (now + cfg.bountyDepositPayoutDelay) }) hsub rfl rfl rfl hInv

theorem Inv_claim_subbounty (now : BlockNum) (id sid : BountyIndex) (s : State)
    (hInv : Inv s) : Inv (claim_subbounty now id sid s).2 := by
  unfold claim_subbounty
  cases hsub : s.subbounties id sid with
  | none => exact hInv
  | some sb =>
      dsimp only
      cases hst : sb.status with
      | Added => exact hInv
      | SubCuratorProposed sc => exact hInv
      | Active sc => exact hInv
      | PendingPayout sc ben u =>
          dsimp only
          split
          · simp only [transferBestEffort_bounties, unreserveOp_bounties]
            cases hpar : s.bounties id with
            | some b =>
                dsimp only
                refine Inv_mk_removeSub s _ id sid sb b ({ b with active_subbounty_count := b.active_subbounty_count - 1 }) hsub hpar ?_ ?_ ?_ rfl rfl hInv
                · simp
                · simp
                · simp
            | none =>
                dsimp only
                refine Inv_mk_removeSub_noParent s _ id sid sb hsub hpar ?_ ?_ ?_ hInv
                · simp
                · simp
                · simp
          · exact hInv

theorem Inv_impl_close_subbounty (id sid : BountyIndex) (s : State) (hInv : Inv s) :
    Inv (impl_close_subbounty id sid s).2 := by
  unfold impl_close_subbounty
  cases hsub : s.subbounties id sid with
  | none => exact hInv
  | some sb =>
      dsimp only
      cases hst : sb.status with
      | PendingPayout sc ben u => exact hInv
      | Added =>
          dsimp only
          cases hpar : s.bounties id with
          | some b =>
              dsimp only
              refine Inv_mk_removeSub s _ id sid sb b ({ b with fee := b.fee + sb.fee, active_subbounty_count := b.active_subbounty_count - 1 }) hsub hpar ?_ ?_ ?_ rfl rfl hInv
              · simp
              · simp
              · simp
          | none =>
              dsimp only
              refine Inv_mk_removeSub_noParent s _ id sid sb hsub hpar ?_ ?_ ?_ hInv
              · simp
              · simp
              · simp
      | SubCuratorProposed sc =>
          dsimp only
          cases hpar : s.bounties id with
          | some b =>
              dsimp only
              refine Inv_mk_removeSub s _ id sid sb b ({ b with fee := b.fee + sb.fee, active_subbounty_count := b.active_subbounty_count - 1 }) hsub hpar ?_ ?_ ?_ rfl rfl hInv
              · simp
              · simp
              · simp
          | none =>
              dsimp only
              refine Inv_mk_removeSub_noParent s _ id sid sb hsub hpar ?_ ?_ ?_ hInv
              · simp
              · simp
              · simp
      | Active sc =>
          dsimp only
          simp only [unreserveOp_bounties]
          cases hpar : s.bounties id with
          | some b =>
              dsimp only
              refine Inv_mk_removeSub s _ id sid sb b ({ b with fee := b.fee + sb.fee, active_subbounty_count := b.active_subbounty_count - 1 }) hsub hpar ?_ ?_ ?_ rfl rfl hInv
              · simp
              · simp
              · simp
          | none =>
              dsimp only
              refine Inv_mk_removeSub_noParent s _ id sid sb hsub hpar ?_ ?_ ?_ hInv
              · simp
              · simp
              · simp

theorem Inv_close_subbounty (ms : Option AccountId) (id sid : BountyIndex) (s : State)
    (hInv : Inv s) : Inv (close_subbounty ms id sid s).2 := by
  unfold close_subbounty
  cases hact : ensure_bounty_active s id with
  | error e => exact hInv
  | ok pr =>
      obtain ⟨mc, ud⟩ := pr
      dsimp only
      cases ms with
      | none => exact Inv_impl_close_subbounty id sid s hInv
      | some sender =>
          dsimp only
          split
          · exact Inv_impl_close_subbounty id sid s hInv
          · exact hInv

theorem Inv_fundBounty (id : BountyIndex) (b : Bounty) (s : State)
    (hbid : s.bounties id = some b) (hInv : Inv s) : Inv (fundBounty id b s) := by
  refine Inv_mk_updateBounty s _ id b _ hbid rfl rfl rfl rfl ?_ hInv
  intro cc ben u h2
  cases h2

theorem Inv_spendGo (budget : Balance) (q : List BountyIndex) (s : State)
    (hInv : Inv s) : Inv (spendGo budget q s).2.2 := by
  induction q generalizing budget s with
  | nil => exact hInv
  | cons id rest ih =>
      unfold spendGo
      cases hbid : s.bounties id with
      | none => exact ih budget s hInv
      | some b =>
          dsimp only
          split
          · exact ih _ _ (Inv_fundBounty id b s hbid hInv)
          · exact ih budget s hInv

theorem Inv_spend_funds (budget : Balance) (s : State) (hInv : Inv s) :
    Inv (spend_funds budget s).2 := by
  unfold spend_funds
  exact Inv_mk_congr _ _ rfl rfl rfl (Inv_spendGo budget s.approvals s hInv)

theorem Inv_applyOp (cfg : Config) (now : BlockNum) (op : Op) (s : State)
    (hInv : Inv s) : Inv (applyOp cfg now op s).2 := by
  cases op with
  | proposeBounty p v d => exact Inv_propose_bounty cfg p v d s hInv
  | approveBounty id => exact Inv_approve_bounty id s hInv
  | proposeCurator id c f => exact Inv_propose_curator id c f s hInv
  | unassignCurator ms id => exact Inv_unassign_curator now ms id s hInv
  | acceptCurator g id => exact Inv_accept_curator cfg now g id s hInv
  | awardBounty g id ben => exact Inv_award_bounty cfg now g id ben s hInv
  | claimBounty id => exact Inv_claim_bounty now id s hInv
  | closeBounty id => exact Inv_close_bounty id s hInv
  | extendBountyExpiry g id => exact Inv_extend_bounty_expiry cfg now g id s hInv
  | addSubbounty g id v d => exact Inv_add_subbounty cfg g id v d s hInv
  | proposeSubcurator g id sid sc f => exact Inv_propose_subcurator g id sid sc f s hInv
  | acceptSubcurator g id sid => exact Inv_accept_subcurator cfg g id sid s hInv
  | unassignSubcurator ms id sid => exact Inv_unassign_subcurator now ms id sid s hInv
  | awardSubbounty g id sid ben => exact Inv_award_subbounty cfg now g id sid ben s hInv
  | claimSubbounty id sid => exact Inv_claim_subbounty now id sid s hInv
  | closeSubbounty ms id sid => exact Inv_close_subbounty ms id sid s hInv
  | spendFunds budget => exact Inv_spend_funds budget s hInv

theorem Inv_init (s : State) (h : IsInit s) : Inv s := by
  obtain ⟨hc, hb, hs, _, _⟩ := h
  refine ⟨⟨?_, ?_⟩, ?_, ?_⟩
  · intro i hi; rw [hb] at hi; cases hi
  · intro pb sid hsid; rw [hs] at hsid; cases hsid
  · intro pb b hpb; rw [hb] at hpb; cases hpb
  · intro pb b hpb; rw [hb] at hpb; cases hpb

theorem Inv_reachable (cfg : Config) (s : State) (h : Reachable cfg s) : Inv s := by
  obtain ⟨s0, hinit, hsteps⟩ := h
  induction hsteps with
  | refl => exact Inv_init s0 hinit
  | tail _ hstep ih =>
      obtain ⟨now, op, hop⟩ := hstep
      rw [← hop]
      exact Inv_applyOp cfg now op _ ih

/-! Concrete configuration, genesis state and execution traces used by the
witnesses and counterexamples (the constants follow the test mock:
deposit base 80, one unit per byte, payout delay 3, update period 20,
curator deposit rate 50%). -/

def cfg0 : Config :=
  { bountyDepositBase := 80, dataDepositPerByte := 1, bountyDepositPayoutDelay := 3,
    bountyUpdatePeriod := 20, bountyCuratorDepositPpm := 500000, bountyValueMinimum := 1,
    maximumReasonLength := 16384, maxActiveSubBountyCount := 3 }

def init0 : State :=
  { bountyCount := 0, bounties := fun _ => none, subbounties := fun _ _ => none,
    descriptions := fun _ => none, approvals := [],
    free := fun a => match a with | .user _ => 1000 | _ => 0,
    reserved := fun _ => 0 }

theorem init0_isInit : IsInit init0 := ⟨rfl, rfl, rfl, rfl, rfl⟩

theorem Reachable_init : Reachable cfg0 init0 :=
  ⟨init0, init0_isInit, .refl⟩

theorem Reachable_step (cfg : Config) (s : State) (now : BlockNum) (op : Op)
    (h : Reachable cfg s) : Reachable cfg (applyOp cfg now op s).2 := by
  obtain ⟨s0, hi, hsteps⟩ := h
  exact ⟨s0, hi, hsteps.tail ⟨now, op, rfl⟩⟩

/-- Trace A: propose, approve, fund, assign and accept a curator, add a
sub-bounty, delegate a sub-curator fee of 9 out of the parent fee 10. -/
def stA1 : State := (applyOp cfg0 1 (.proposeBounty (.user 0) 50 []) init0).2

def stA2 : State := (applyOp cfg0 1 (.approveBounty 0) stA1).2

def stA3 : State := (applyOp cfg0 2 (.spendFunds 100) stA2).2

def stA4 : State := (applyOp cfg0 2 (.proposeCurator 0 (.user 1) 10) stA3).2

def stA5 : State := (applyOp cfg0 2 (.acceptCurator (.user 1) 0) stA4).2

def stA6 : State := (applyOp cfg0 2 (.addSubbounty (.user 1) 0 20 []) stA5).2

def stA7 : State := (applyOp cfg0 2 (.proposeSubcurator (.user 1) 0 1 (.user 2) 9) stA6).2

theorem stA5_reachable : Reachable cfg0 stA5 :=
  Reachable_step cfg0 stA4 2 _ (Reachable_step cfg0 stA3 2 _
    (Reachable_step cfg0 stA2 2 _ (Reachable_step cfg0 stA1 1 _
      (Reachable_step cfg0 init0 1 _ Reachable_init))))

theorem stA6_reachable : Reachable cfg0 stA6 :=
  Reachable_step cfg0 stA5 2 _ stA5_reachable

theorem stA7_reachable : Reachable cfg0 stA7 :=
  Reachable_step cfg0 stA6 2 _ stA6_reachable

/-- Trace A continued: close the sub-bounty, then award the parent. -/
def stA8 : State := (applyOp cfg0 2 (.closeSubbounty (some (.user 1)) 0 1) stA7).2

def stA9 : State := (applyOp cfg0 2 (.awardBounty (.user 1) 0 (.user 3)) stA8).2

theorem stA9_reachable : Reachable cfg0 stA9 :=
  Reachable_step cfg0 stA8 2 _ (Reachable_step cfg0 stA7 2 _ stA7_reachable)

/-- Trace B: a curator is proposed while the bounty is still `Approved`
and queued; the next funding cycle overwrites the status. -/
def stB1 : State := (applyOp cfg0 1 (.proposeBounty (.user 0) 50 []) init0).2

def stB2 : State := (applyOp cfg0 1 (.approveBounty 0) stB1).2

def stB3 : State := (applyOp cfg0 1 (.proposeCurator 0 (.user 1) 10) stB2).2

def stB4 : State := (applyOp cfg0 3 (.spendFunds 100) stB3).2

theorem stB3_reachable : Reachable cfg0 stB3 :=
  Reachable_step cfg0 stB2 1 _ (Reachable_step cfg0 stB1 1 _
    (Reachable_step cfg0 init0 1 _ Reachable_init))

/-! Ledger effect lemmas and success characterisations used by the claim
theorems. -/

theorem unreserveOp_effect (s : State) (w : AccountId) (amt : Balance) :
    (unreserveOp s w amt).free w = s.free w + min amt (s.reserved w) ∧
    (unreserveOp s w amt).reserved w = s.reserved w - min amt (s.reserved w) ∧
    (∀ a, a ≠ w → (unreserveOp s w amt).free a = s.free a ∧
      (unreserveOp s w amt).reserved a = s.reserved a) := by
  refine ⟨?_, ?_, ?_⟩
  · simp [unreserveOp, updBal]
  · simp [unreserveOp, updBal]
  · intro a ha
    constructor <;> simp [unreserveOp, updBal, ha]

theorem slashReservedOp_effect (s : State) (w : AccountId) (amt : Balance) :
    (slashReservedOp s w amt).reserved w = s.reserved w - min amt (s.reserved w) ∧
    (slashReservedOp s w amt).free = s.free ∧
    (∀ a, a ≠ w → (slashReservedOp s w amt).reserved a = s.reserved a) := by
  refine ⟨?_, rfl, ?_⟩
  · simp [slashReservedOp, updBal]
  · intro a ha
    simp [slashReservedOp, updBal, ha]

theorem transferBestEffort_success (s : State) (src dst : AccountId) (amt : Balance)
    (h : amt ≤ s.free src) (hne : dst ≠ src) :
    (transferBestEffort s src dst amt).free src = s.free src - amt ∧
    (transferBestEffort s src dst amt).free dst = s.free dst + amt ∧
    (∀ a, a ≠ src → a ≠ dst → (transferBestEffort s src dst amt).free a = s.free a) := by
  unfold transferBestEffort transferOp
  rw [if_pos h]
  have hne2 : src ≠ dst := Ne.symm hne
  refine ⟨?_, ?_, ?_⟩
  · simp [updBal, hne, hne2]
  · simp [updBal, hne, hne2]
  · intro a h1 h2
    simp [updBal, h1, h2]

theorem ensure_bounty_active_eq_ok (s : State) (id : BountyIndex) (b : Bounty)
    (curator : AccountId) (ud : BlockNum)
    (hbid : s.bounties id = some b) (hst : b.status = .Active curator ud) :
    ensure_bounty_active s id = .ok (curator, ud) := by
  unfold ensure_bounty_active
  rw [hbid]
  dsimp only
  rw [hst]

/-- `claim_bounty` succeeds exactly on a stored bounty in `PendingPayout`
whose unlock block has been reached. -/
theorem claim_bounty_succeeds_iff (now : BlockNum) (id : BountyIndex) (s : State) :
    (claim_bounty now id s).1 = none ↔
    ∃ b c ben u, s.bounties id = some b ∧ b.status = .PendingPayout c ben u ∧ u ≤ now := by
  unfold claim_bounty
  cases hbid : s.bounties id with
  | none => simp
  | some b =>
      dsimp only
      cases hst : b.status with
      | PendingPayout c ben u =>
          dsimp only
          split
          next hle =>
            constructor
            · intro _
              exact ⟨b, c, ben, u, rfl, hst, hle⟩
            · intro _
              rfl
          next hle =>
            constructor
            · intro hcon
              cases hcon
            · rintro ⟨b2, c2, ben2, u2, hb2, hst2, hle2⟩
              injection hb2 with hb3
              rw [← hb3, hst] at hst2
              cases hst2
              exact absurd hle2 hle
      | Proposed => simp [hst]
      | Approved => simp [hst]
      | Funded => simp [hst]
      | CuratorProposed c => simp [hst]
      | Active c u => simp [hst]

/-- Shape of a successful `add_subbounty`: the counter advances, the
parent count field is incremented, and exactly one fresh sub-bounty
record is inserted at key `(id, old counter)`. -/
theorem add_subbounty_shape (cfg : Config) (g : AccountId) (id : BountyIndex)
    (v : Balance) (d : List Nat) (s : State)
    (h : (add_subbounty cfg g id v d s).1 = none) :
    ∃ b, s.bounties id = some b ∧
      (add_subbounty cfg g id v d s).2.bountyCount = s.bountyCount + 1 ∧
      ((add_subbounty cfg g id v d s).2.bounties id).map Bounty.active_subbounty_count =
        some (b.active_subbounty_count + 1) ∧
      (add_subbounty cfg g id v d s).2.subbounties = updSub s.subbounties id s.bountyCount
        (some { value := v, fee := 0, curator_deposit := 0, status := .Added }) := by
  unfold add_subbounty at h ⊢
  cases hbid : s.bounties id with
  | none => rw [hbid] at h; cases h
  | some b =>
      rw [hbid] at h
      dsimp only at h ⊢
      cases hst : b.status with
      | Active curator ud =>
          rw [hst] at h
          dsimp only at h ⊢
          split at h
          next hg =>
            split at h
            next hlen => cases h
            next hlen =>
              split at h
              next hval => cases h
              next hval =>
                split at h
                next hcnt => cases h
                next hcnt =>
                  split at h
                  next hbal => cases h
                  next hbal =>
                    rw [if_pos hg, if_neg hlen, if_neg hval, if_neg hcnt, if_neg hbal]
                    refine ⟨b, rfl, by simp, ?_, by simp⟩
                    simp [updB]
          next hg => cases h
      | Proposed => rw [hst] at h; cases h
      | Approved => rw [hst] at h; cases h
      | Funded => rw [hst] at h; cases h
      | CuratorProposed c => rw [hst] at h; cases h
      | PendingPayout c bn u => rw [hst] at h; cases h

/-- Shape of a successful `claim_subbounty`: the record and its
description are removed; the parent count field is decremented when the
parent record exists and nothing else in the bounty map changes. -/
theorem claim_subbounty_shape (now : BlockNum) (id sid : BountyIndex) (s : State)
    (h : (claim_subbounty now id sid s).1 = none) :
    ∃ sb, s.subbounties id sid = some sb ∧
      (claim_subbounty now id sid s).2.bountyCount = s.bountyCount ∧
      (claim_subbounty now id sid s).2.subbounties = updSub s.subbounties id sid none ∧
      ((claim_subbounty now id sid s).2.bounties id).map Bounty.active_subbounty_count =
        (s.bounties id).map (fun b => b.active_subbounty_count - 1) ∧
      (∀ pb, pb ≠ id → (claim_subbounty now id sid s).2.bounties pb = s.bounties pb) := by
  unfold claim_subbounty at h ⊢
  cases hsub : s.subbounties id sid with
  | none => rw [hsub] at h; cases h
  | some sb =>
      rw [hsub] at h
      dsimp only at h ⊢
      cases hst : sb.status with
      | PendingPayout sc ben u =>
          rw [hst] at h
          dsimp only at h ⊢
          split at h
          next hle =>
            rw [if_pos hle]
            refine ⟨sb, rfl, ?_, ?_, ?_, ?_⟩
            · simp only [transferBestEffort_bounties, unreserveOp_bounties]
              cases hpar : s.bounties id with
              | some b => dsimp only; simp
              | none => dsimp only; simp
            · simp only [transferBestEffort_bounties, unreserveOp_bounties]
              cases hpar : s.bounties id with
              | some b => dsimp only; simp
              | none => dsimp only; simp
            · simp only [transferBestEffort_bounties, unreserveOp_bounties]
              cases hpar : s.bounties id with
              | some b =>
                  dsimp only
                  simp [updB, hpar]
              | none =>
                  dsimp only
                  simp [hpar]
            · intro pb hpb
              simp only [transferBestEffort_bounties, unreserveOp_bounties]
              cases hpar : s.bounties id with
              | some b =>
                  dsimp only
                  simp [updB, hpb]
              | none => dsimp only; simp
          next hle => cases h
      | Added => rw [hst] at h; cases h
      | SubCuratorProposed sc => rw [hst] at h; cases h
      | Active sc => rw [hst] at h; cases h

/-- Shape of a successful `impl_close_subbounty`: the record and its
description are removed, the sub fee is added back to the parent fee and
the parent count field is decremented (when the parent record exists). -/
theorem impl_close_subbounty_shape (id sid : BountyIndex) (s : State)
    (h : (impl_close_subbounty id sid s).1 = none) :
    ∃ sb, s.subbounties id sid = some sb ∧
      (impl_close_subbounty id sid s).2.bountyCount = s.bountyCount ∧
      (impl_close_subbounty id sid s).2.subbounties = updSub s.subbounties id sid none ∧
      ((impl_close_subbounty id sid s).2.bounties id).map Bounty.active_subbounty_count =
        (s.bounties id).map (fun b => b.active_subbounty_count - 1) ∧
      ((impl_close_subbounty id sid s).2.bounties id).map Bounty.fee =
        (s.bounties id).map (fun b => b.fee + sb.fee) ∧
      (∀ pb, pb ≠ id → (impl_close_subbounty id sid s).2.bounties pb = s.bounties pb) := by
  unfold impl_close_subbounty at h ⊢
  cases hsub : s.subbounties id sid with
  | none => rw [hsub] at h; cases h
  | some sb =>
      rw [hsub] at h
      dsimp only at h ⊢
      cases hst : sb.status with
      | PendingPayout sc ben u => rw [hst] at h; cases h
      | Added =>
          rw [hst] at h
          dsimp only at h ⊢
          refine ⟨sb, rfl, ?_, ?_, ?_, ?_, ?_⟩
          · cases hpar : s.bounties id with
            | some b => simp
            | none => simp
          · cases hpar : s.bounties id with
            | some b => simp
            | none => simp
          · cases hpar : s.bounties id with
            | some b => simp [updB, hpar]
            | none => simp [hpar]
          · cases hpar : s.bounties id with
            | some b => simp [updB, hpar]
            | none => simp [hpar]
          · intro pb hpb
            cases hpar : s.bounties id with
            | some b => simp [updB, hpar, hpb]
            | none => simp [hpar]
      | SubCuratorProposed sc =>
          rw [hst] at h
          dsimp only at h ⊢
          refine ⟨sb, rfl, ?_, ?_, ?_, ?_, ?_⟩
          · cases hpar : s.bounties id with
            | some b => simp
            | none => simp
          · cases hpar : s.bounties id with
            | some b => simp
            | none => simp
          · cases hpar : s.bounties id with
            | some b => simp [updB, hpar]
            | none => simp [hpar]
          · cases hpar : s.bounties id with
            | some b => simp [updB, hpar]
            | none => simp [hpar]
          · intro pb hpb
            cases hpar : s.bounties id with
            | some b => simp [updB, hpar, hpb]
            | none => simp [hpar]
      | Active sc =>
          rw [hst] at h
          dsimp only at h ⊢
          refine ⟨sb, rfl, ?_, ?_, ?_, ?_, ?_⟩
          · simp only [unreserveOp_bounties]
            cases hpar : s.bounties id with
            | some b => simp
            | none => simp
          · simp only [unreserveOp_bounties]
            cases hpar : s.bounties id with
            | some b => simp
            | none => simp
          · simp only [unreserveOp_bounties]
            cases hpar : s.bounties id with
            | some b => simp [updB, hpar]
            | none => simp [hpar]
          · simp only [unreserveOp_bounties]
            cases hpar : s.bounties id with
            | some b => simp [updB, hpar]
            | none => simp [hpar]
          · intro pb hpb
            simp only [unreserveOp_bounties]
            cases hpar : s.bounties id with
            | some b => simp [updB, hpar, hpb]
            | none => simp [hpar]

/-- A successful `close_subbounty` reduces to `impl_close_subbounty`. -/
theorem close_subbounty_success_eq (ms : Option AccountId) (id sid : BountyIndex)
    (s : State) (h : (close_subbounty ms id sid s).1 = none) :
    close_subbounty ms id sid s = impl_close_subbounty id sid s := by
  unfold close_subbounty at h ⊢
  cases hact : ensure_bounty_active s id with
  | error e => rw [hact] at h; cases h
  | ok pr =>
      obtain ⟨mc, ud⟩ := pr
      rw [hact] at h
      dsimp only at h ⊢
      cases ms with
      | none => rfl
      | some sender =>
          dsimp only at h ⊢
          split at h
          next hd => rw [if_pos hd]
          next hd => cases h

/-! Record values reached by trace A, used by witnesses. -/

def bA5 : Bounty :=
  { proposer := .user 0, value := 50, fee := 10, curator_deposit := 5, bond := 80,
    status := .Active (.user 1) 22, active_subbounty_count := 0 }

def bA6 : Bounty :=
  { proposer := .user 0, value := 50, fee := 10, curator_deposit := 5, bond := 80,
    status := .Active (.user 1) 22, active_subbounty_count := 1 }

def sbA6 : SubBounty :=
  { value := 20, fee := 0, curator_deposit := 0, status := .Added }

def bA7 : Bounty :=
  { proposer := .user 0, value := 50, fee := 1, curator_deposit := 5, bond := 80,
    status := .Active (.user 1) 22, active_subbounty_count := 1 }

def sbA7 : SubBounty :=
  { value := 20, fee := 9, curator_deposit := 0, status := .SubCuratorProposed (.user 2) }

/-- C1: for every operation of the state machine and every starting state,
an error result leaves every stored record (bounties, sub-bounties,
descriptions, approval queue, counters) and every ledger balance exactly
as before the call; in particular `add_subbounty` failing with
`InsufficientBountyBalance` mutates nothing. -/
theorem C1_error_atomicity :
    (∀ (cfg : Config) (now : BlockNum) (op : Op) (s : State) (e : Err),
      (applyOp cfg now op s).1 = some e → (applyOp cfg now op s).2 = s) ∧
    (∀ (cfg : Config) (g : AccountId) (id : BountyIndex) (v : Balance)
      (d : List Nat) (s : State),
      (add_subbounty cfg g id v d s).1 = some Err.InsufficientBountyBalance →
      (add_subbounty cfg g id v d s).2 = s) := by
  constructor
  · intro cfg now op s e h
    rcases applyOp_atomic cfg now op s with h1 | h1
    · rw [h] at h1; cases h1
    · exact h1
  · intro cfg g id v d s h
    rcases add_subbounty_atomic cfg g id v d s with h1 | h1
    · rw [h] at h1; cases h1
    · exact h1

/-- C1 witness: `approve_bounty` on an empty store fails `InvalidIndex`
and leaves the state untouched; `add_subbounty` asking for 30 when the
escrow holds 30 but the parent fee commitment is 1 fails
`InsufficientBountyBalance` and leaves the state untouched. -/
theorem C1_error_atomicity_witness :
    (applyOp cfg0 0 (.approveBounty 0) init0).1 = some Err.InvalidIndex ∧
    (applyOp cfg0 0 (.approveBounty 0) init0).2 = init0 ∧
    (add_subbounty cfg0 (.user 1) 0 30 [] stA7).1 = some Err.InsufficientBountyBalance ∧
    (add_subbounty cfg0 (.user 1) 0 30 [] stA7).2 = stA7 :=
  ⟨by decide, C1_error_atomicity.1 cfg0 0 (.approveBounty 0) init0 Err.InvalidIndex (by decide),
   by decide, C1_error_atomicity.2 cfg0 (.user 1) 0 30 [] stA7 (by decide)⟩

/-- C3 counterexample: in the reachable state `stA7` the parent bounty's
`fee` field is 1 while the sum of the stored sub-bounty `fee` fields under
it is 9, refuting `parent.fee ≥ sum of child fees`. -/
theorem C3_counterexample :
    Reachable cfg0 stA7 ∧
    (stA7.bounties 0).map Bounty.fee = some 1 ∧
    subFeeSum stA7 0 = 9 ∧
    ¬ (1 : Nat) ≥ 9 :=
  ⟨stA7_reachable, by decide, by decide, by decide⟩

/-- C3 amended: `propose_subcurator` rejects with `InvalidFee` any fee not
strictly below the sub-bounty value or not strictly below the parent's
current fee, and on success subtracts the delegated fee from the parent
fee, which therefore stays strictly positive (the fee moves to the child
record; the parent fee can drop below the sum of stored child fees). -/
theorem C3_amended_fee_delegation (g : AccountId) (id sid : BountyIndex)
    (sc : AccountId) (f : Balance) (s : State) (b : Bounty) (sb : SubBounty)
    (curator : AccountId) (ud : BlockNum)
    (hbid : s.bounties id = some b) (hst : b.status = .Active curator ud)
    (hsub : s.subbounties id sid = some sb) (hsbst : sb.status = .Added)
    (hg : g = curator) :
    (f < sb.value → f < b.fee →
      (propose_subcurator g id sid sc f s).1 = none ∧
      ((propose_subcurator g id sid sc f s).2.bounties id).map Bounty.fee = some (b.fee - f) ∧
      0 < b.fee - f ∧
      ((propose_subcurator g id sid sc f s).2.subbounties id sid).map SubBounty.fee = some f) ∧
    (f < sb.value → ¬ f < b.fee → propose_subcurator g id sid sc f s = (some .InvalidFee, s)) ∧
    (¬ f < sb.value → propose_subcurator g id sid sc f s = (some .InvalidFee, s)) := by
  unfold propose_subcurator
  rw [ensure_bounty_active_eq_ok s id b curator ud hbid hst]
  dsimp only
  rw [hsub]
  dsimp only
  rw [if_pos hg, if_pos hsbst]
  refine ⟨?_, ?_, ?_⟩
  · intro h1 h2
    rw [if_pos h1, hbid]
    dsimp only
    rw [if_pos h2]
    refine ⟨rfl, ?_, Nat.sub_pos_of_lt h2, ?_⟩
    · simp [updB]
    · simp [updSub]
  · intro h1 h2
    rw [if_pos h1, hbid]
    dsimp only
    rw [if_neg h2]
  · intro h1
    rw [if_neg h1]

/-- C3 amended witness: at `stA6` delegating fee 9 (below the sub value 20
and the parent fee 10) succeeds and leaves the parent fee at 1 > 0. -/
theorem C3_amended_witness :
    (propose_subcurator (.user 1) 0 1 (.user 2) 9 stA6).1 = none ∧
    ((propose_subcurator (.user 1) 0 1 (.user 2) 9 stA6).2.bounties 0).map Bounty.fee = some 1 ∧
    (0 : Nat) < 1 := by
  have h := (C3_amended_fee_delegation (.user 1) 0 1 (.user 2) 9 stA6 bA6 sbA6
    (.user 1) 22 (by decide) rfl (by decide) rfl rfl).1 (by decide) (by decide)
  exact ⟨h.1, h.2.1, h.2.2.1⟩

/-- C4 counterexample: in the reachable state `stA7` the sub-bounty fee 9
has been delegated out of the parent fee (now 1); `unassign_subcurator`
by the reject authority succeeds but the parent fee stays 1 instead of
being restored to 1 + 9. -/
theorem C4_counterexample :
    Reachable cfg0 stA7 ∧
    (unassign_subcurator 2 none 0 1 stA7).1 = none ∧
    (stA7.bounties 0).map Bounty.fee = some 1 ∧
    (stA7.subbounties 0 1).map SubBounty.fee = some 9 ∧
    ((unassign_subcurator 2 none 0 1 stA7).2.bounties 0).map Bounty.fee = some 1 ∧
    (1 : Nat) ≠ 1 + 9 :=
  ⟨stA7_reachable, by decide, by decide, by decide, by decide, by decide⟩

/-- C4 amended: `unassign_subcurator` never changes any bounty record, so
the delegated fee is not returned to the parent; only a successful
`close_subbounty` adds the sub-bounty's fee back onto the parent fee. -/
theorem C4_amended_fee_restoration :
    (∀ (now : BlockNum) (ms : Option AccountId) (id sid : BountyIndex) (s : State),
      (unassign_subcurator now ms id sid s).2.bounties = s.bounties) ∧
    (∀ (ms : Option AccountId) (id sid : BountyIndex) (s : State) (b : Bounty)
      (sb : SubBounty), s.bounties id = some b → s.subbounties id sid = some sb →
      (close_subbounty ms id sid s).1 = none →
      ((close_subbounty ms id sid s).2.bounties id).map Bounty.fee = some (b.fee + sb.fee)) := by
  constructor
  · intro now ms id sid s
    unfold unassign_subcurator
    repeat' split
    all_goals rfl
  · intro ms id sid s b sb hbid hsub h
    have heq := close_subbounty_success_eq ms id sid s h
    rw [heq] at h
    rw [heq]
    obtain ⟨sb2, hsub2, _, _, _, hfee, _⟩ := impl_close_subbounty_shape id sid s h
    rw [hsub] at hsub2
    injection hsub2 with hsb
    rw [hfee, hbid, ← hsb]
    rfl

/-- C4 amended witness: at `stA7`, reject-origin unassign leaves the parent
fee at 1, while closing the sub-bounty restores it to 1 + 9 = 10. -/
theorem C4_amended_witness :
    ((unassign_subcurator 2 none 0 1 stA7).2.bounties 0).map Bounty.fee =
      (stA7.bounties 0).map Bounty.fee ∧
    ((close_subbounty (some (.user 1)) 0 1 stA7).2.bounties 0).map Bounty.fee = some 10 := by
  constructor
  · rw [C4_amended_fee_restoration.1 2 none 0 1 stA7]
  · have h := C4_amended_fee_restoration.2 (some (.user 1)) 0 1 stA7 bA7 sbA7
      (by decide) (by decide) (by decide)
    rw [h]
    decide

/-- C7 counterexample: at the reachable state `stA5` (bounty 0 `Active`
with curator deposit 5) the curator's own `unassign_curator` succeeds and
sets the status to `Funded`, but the `curator_deposit` field keeps the
value 5 instead of being reset. -/
theorem C7_counterexample :
    Reachable cfg0 stA5 ∧
    (unassign_curator 5 (some (.user 1)) 0 stA5).1 = none ∧
    ((unassign_curator 5 (some (.user 1)) 0 stA5).2.bounties 0).map Bounty.status =
      some .Funded ∧
    ((unassign_curator 5 (some (.user 1)) 0 stA5).2.bounties 0).map Bounty.curator_deposit =
      some 5 ∧
    (5 : Nat) ≠ 0 :=
  ⟨stA5_reachable, by decide, by decide, by decide, by decide⟩

/-- C7 amended: `unassign_curator` on an `Active` bounty behaves by caller
role — the reject authority always slashes the deposit and resets the
field; the curator itself gets the deposit unreserved but the field is
left at its old value; any other signed account succeeds (and slashes,
resetting the field) exactly when `update_due < now`, failing `Premature`
otherwise; every success sets the status to `Funded`. -/
theorem C7_unassign_active_roles (now : BlockNum) (ms : Option AccountId)
    (id : BountyIndex) (s : State) (b : Bounty) (curator : AccountId) (ud : BlockNum)
    (hbid : s.bounties id = some b) (hst : b.status = .Active curator ud) :
    (ms = none →
      (unassign_curator now ms id s).1 = none ∧
      (unassign_curator now ms id s).2.bounties id =
        some { b with curator_deposit := 0, status := .Funded } ∧
      (unassign_curator now ms id s).2.reserved curator =
        s.reserved curator - min b.curator_deposit (s.reserved curator) ∧
      (unassign_curator now ms id s).2.free curator = s.free curator) ∧
    (ms = some curator →
      (unassign_curator now ms id s).1 = none ∧
      (unassign_curator now ms id s).2.bounties id = some { b with status := .Funded } ∧
      (unassign_curator now ms id s).2.free curator =
        s.free curator + min b.curator_deposit (s.reserved curator) ∧
      (unassign_curator now ms id s).2.reserved curator =
        s.reserved curator - min b.curator_deposit (s.reserved curator)) ∧
    (∀ sender, ms = some sender → sender ≠ curator →
      (ud < now →
        (unassign_curator now ms id s).1 = none ∧
        (unassign_curator now ms id s).2.bounties id =
          some { b with curator_deposit := 0, status := .Funded }) ∧
      (¬ ud < now → unassign_curator now ms id s = (some .Premature, s))) := by
  unfold unassign_curator
  rw [hbid]
  dsimp only
  rw [hst]
  dsimp only
  refine ⟨?_, ?_, ?_⟩
  · rintro rfl
    dsimp only
    refine ⟨rfl, by simp [updB], ?_, rfl⟩
    simp only [setBounty_reserved]
    exact (slashReservedOp_effect s curator b.curator_deposit).1
  · rintro rfl
    dsimp only
    rw [if_neg (by simp)]
    refine ⟨rfl, by simp [updB], ?_, ?_⟩
    · simp only [setBounty_free]
      exact (unreserveOp_effect s curator b.curator_deposit).1
    · simp only [setBounty_reserved]
      exact (unreserveOp_effect s curator b.curator_deposit).2.1
  · intro sender hms hne
    rw [hms]
    dsimp only
    rw [if_pos hne]
    constructor
    · intro hud
      rw [if_pos hud]
      exact ⟨rfl, by simp [updB]⟩
    · intro hud
      rw [if_neg hud]

/-- C7 amended witness: at `stA5` (deposit 5, `update_due` 22) the curator
unassigns at block 5 keeping the field at 5; a third party fails
`Premature` at block 5 and succeeds at block 25 with the field reset. -/
theorem C7_unassign_active_roles_witness :
    ((unassign_curator 5 (some (.user 1)) 0 stA5).2.bounties 0).map Bounty.curator_deposit =
      some 5 ∧
    unassign_curator 5 (some (.user 9)) 0 stA5 = (some .Premature, stA5) ∧
    ((unassign_curator 25 (some (.user 9)) 0 stA5).2.bounties 0).map Bounty.curator_deposit =
      some 0 := by
  refine ⟨?_, ?_, ?_⟩
  · have h := ((C7_unassign_active_roles 5 (some (.user 1)) 0 stA5 bA5 (.user 1) 22
      (by decide) rfl).2.1 rfl).2.1
    rw [h]
    decide
  · exact ((C7_unassign_active_roles 5 (some (.user 9)) 0 stA5 bA5 (.user 1) 22
      (by decide) rfl).2.2 (.user 9) rfl (by decide)).2 (by decide)
  · have h := (((C7_unassign_active_roles 25 (some (.user 9)) 0 stA5 bA5 (.user 1) 22
      (by decide) rfl).2.2 (.user 9) rfl (by decide)).1 (by decide)).2
    rw [h]
    decide

/-- C9: `extend_bounty_expiry` on a stored `Active` bounty succeeds
exactly for the stored curator and sets the new `update_due` to
`max (now + update period) update_due`, which is never below the old
value. -/
theorem C9_extend_expiry_monotonic (cfg : Config) (now : BlockNum) (g : AccountId)
    (id : BountyIndex) (s : State) (b : Bounty) (curator : AccountId) (ud : BlockNum)
    (hbid : s.bounties id = some b) (hst : b.status = .Active curator ud) :
    ((extend_bounty_expiry cfg now g id s).1 = none ↔ curator = g) ∧
    (curator ≠ g → extend_bounty_expiry cfg now g id s = (some .RequireCurator, s)) ∧
    (curator = g →
      (extend_bounty_expiry cfg now g id s).2.bounties id =
        some { b with status := .Active curator (max (now + cfg.bountyUpdatePeriod) ud) } ∧
      ud ≤ max (now + cfg.bountyUpdatePeriod) ud) := by
  unfold extend_bounty_expiry
  rw [hbid]
  dsimp only
  rw [hst]
  dsimp only
  by_cases hg : curator = g
  · rw [if_pos hg]
    refine ⟨by simp [hg], fun hne => absurd hg hne, fun _ => ⟨by simp [updB], le_max_right _ _⟩⟩
  · rw [if_neg hg]
    exact ⟨by simp [hg], fun _ => rfl, fun hg2 => absurd hg2 hg⟩

/-- C9 witness: at `stA5` (curator `user 1`, `update_due` 22) extending at
block 5 with update period 20 succeeds and sets `update_due` to
`max 25 22 = 25 ≥ 22`. -/
theorem C9_extend_expiry_witness :
    (extend_bounty_expiry cfg0 5 (.user 1) 0 stA5).1 = none ∧
    ((extend_bounty_expiry cfg0 5 (.user 1) 0 stA5).2.bounties 0).map Bounty.status =
      some (.Active (.user 1) 25) ∧
    (22 : Nat) ≤ 25 := by
  have h := C9_extend_expiry_monotonic cfg0 5 (.user 1) 0 stA5 bA5 (.user 1) 22
    (by decide) rfl
  refine ⟨h.1.mpr rfl, ?_, by decide⟩
  rw [(h.2.2 rfl).1]
  decide

/-- C10: `spend_funds` funds a queued bounty whose value fits the budget
by overwriting its status with `Funded` whatever the current status is; in
the reachable state `stB3` a curator was proposed while the bounty was
still queued (`Approved` at approval time), and the funding cycle resets
the status from `CuratorProposed` back to `Funded`, keeping the fee. -/
theorem C10_funding_overwrites_curator_proposed :
    (∀ (budget : Balance) (s : State) (id : BountyIndex) (b : Bounty),
      s.approvals = [id] → s.bounties id = some b → b.value ≤ budget →
      (spend_funds budget s).2.bounties id = some { b with status := .Funded }) ∧
    (Reachable cfg0 stB3 ∧
      (stB3.bounties 0).map Bounty.status = some (.CuratorProposed (.user 1)) ∧
      (stB3.bounties 0).map Bounty.fee = some 10 ∧
      stB3.approvals = [0] ∧
      (stB4.bounties 0).map Bounty.status = some .Funded ∧
      (stB4.bounties 0).map Bounty.fee = some 10) := by
  constructor
  · intro budget s id b happ hbid hle
    have hrun : spendGo budget s.approvals s = (budget - b.value, [], fundBounty id b s) := by
      rw [happ]
      unfold spendGo
      rw [hbid]
      dsimp only
      rw [if_pos hle]
      rfl
    unfold spend_funds
    rw [hrun]
    simp [fundBounty, updB]
  · exact ⟨stB3_reachable, by decide, by decide, by decide, by decide, by decide⟩

/-- C10 witness: the general funding clause applied to `stB3`. -/
theorem C10_funding_witness :
    (spend_funds 100 stB3).2.bounties 0 = some
      { proposer := .user 0, value := 50, fee := 10, curator_deposit := 0, bond := 80,
        status := .Funded, active_subbounty_count := 0 } := by
  have h := C10_funding_overwrites_curator_proposed.1 100 stB3 0
    { proposer := .user 0, value := 50, fee := 10, curator_deposit := 0, bond := 80,
      status := .CuratorProposed (.user 1), active_subbounty_count := 0 }
    (by decide) (by decide) (by decide)
  rw [h]

/-- The funding algorithm as the specification words it: the queue is
processed in stored order; an entry whose bounty record is gone is
dropped; an entry whose value fits the remaining budget has the value
deducted, the status set to `Funded`, the proposer's bond unreserved and
the value deposited into the escrow account, and is removed from the
queue; an entry whose value exceeds the remaining budget is kept in
place. -/
inductive SpendSpec :
    Balance → List BountyIndex → State → Balance → List BountyIndex → State → Prop where
  | nil {budget : Balance} {s : State} : SpendSpec budget [] s budget [] s
  | gone {budget budget2 : Balance} {i : BountyIndex} {q q2 : List BountyIndex}
      {s s2 : State} : s.bounties i = none →
      SpendSpec budget q s budget2 q2 s2 → SpendSpec budget (i :: q) s budget2 q2 s2
  | fund {budget budget2 : Balance} {i : BountyIndex} {b : Bounty}
      {q q2 : List BountyIndex} {s s2 : State} :
      s.bounties i = some b → b.value ≤ budget →
      SpendSpec (budget - b.value) q
        (depositCreating (unreserveOp (setBounty s i (some { b with status := .Funded }))
          b.proposer b.bond) (AccountId.escrow i) b.value) budget2 q2 s2 →
      SpendSpec budget (i :: q) s budget2 q2 s2
  | missed {budget budget2 : Balance} {i : BountyIndex} {b : Bounty}
      {q q2 : List BountyIndex} {s s2 : State} :
      s.bounties i = some b → budget < b.value →
      SpendSpec budget q s budget2 q2 s2 → SpendSpec budget (i :: q) s budget2 (i :: q2) s2

/-- C8: `spend_funds` drains the approval queue in insertion order per the
specification relation `SpendSpec`, and the surviving queue is a sublist
of the original one (missed entries keep their relative positions, with no
reordering). -/
theorem C8_spend_funds_fifo :
    (∀ (budget : Balance) (q : List BountyIndex) (s : State),
      SpendSpec budget q s (spendGo budget q s).1 (spendGo budget q s).2.1
        (spendGo budget q s).2.2) ∧
    (∀ (budget : Balance) (q : List BountyIndex) (s : State),
      (spendGo budget q s).2.1.Sublist q) ∧
    (∀ (budget : Balance) (s : State),
      (spend_funds budget s).2.approvals.Sublist s.approvals) := by
  have hmain : ∀ (q : List BountyIndex) (budget : Balance) (s : State),
      SpendSpec budget q s (spendGo budget q s).1 (spendGo budget q s).2.1
        (spendGo budget q s).2.2 := by
    intro q
    induction q with
    | nil =>
        intro budget s
        exact .nil
    | cons i rest ih =>
        intro budget s
        unfold spendGo
        cases hbid : s.bounties i with
        | none => exact .gone hbid (ih budget s)
        | some b =>
            dsimp only
            split
            next hle => exact .fund hbid hle (ih _ _)
            next hle =>
                dsimp only
                exact .missed hbid (Nat.lt_of_not_le hle) (ih budget s)
  have hsub : ∀ (q : List BountyIndex) (budget : Balance) (s : State),
      (spendGo budget q s).2.1.Sublist q := by
    intro q
    induction q with
    | nil =>
        intro budget s
        unfold spendGo
        exact .refl []
    | cons i rest ih =>
        intro budget s
        unfold spendGo
        cases hbid : s.bounties i with
        | none => exact (ih budget s).cons i
        | some b =>
            dsimp only
            split
            next hle => exact (ih _ _).cons i
            next hle =>
                dsimp only
                exact (ih budget s).cons₂ i
  refine ⟨fun budget q s => hmain q budget s, fun budget q s => hsub q budget s, ?_⟩
  intro budget s
  unfold spend_funds
  exact hsub s.approvals budget s

/-- C5: in every reachable state, a bounty in `PendingPayout` has
`active_subbounty_count = 0`, and therefore a successful `claim_bounty`
only ever fires on a `PendingPayout` bounty, past its unlock block, with a
zero sub-bounty count. -/
theorem C5_pending_payout_zero_children :
    ∀ (cfg : Config) (s : State), Reachable cfg s →
      (∀ pb b c ben u, s.bounties pb = some b → b.status = .PendingPayout c ben u →
        b.active_subbounty_count = 0) ∧
      (∀ (now : BlockNum) (id : BountyIndex), (claim_bounty now id s).1 = none →
        ∃ b c ben u, s.bounties id = some b ∧ b.status = .PendingPayout c ben u ∧
          u ≤ now ∧ b.active_subbounty_count = 0) := by
  intro cfg s hreach
  obtain ⟨hk, hcnt, hpend⟩ := Inv_reachable cfg s hreach
  refine ⟨fun pb b c ben u h1 h2 => hpend pb b h1 c ben u h2, ?_⟩
  intro now id hsucc
  obtain ⟨b, c, ben, u, h1, h2, h3⟩ := (claim_bounty_succeeds_iff now id s).mp hsucc
  exact ⟨b, c, ben, u, h1, h2, h3, hpend id b h1 c ben u h2⟩

def bA9 : Bounty :=
  { proposer := .user 0, value := 50, fee := 10, curator_deposit := 5, bond := 80,
    status := .PendingPayout (.user 1) (.user 3) 5, active_subbounty_count := 0 }

/-- C5 witness: the reachable state `stA9` holds bounty 0 in
`PendingPayout` with zero sub-bounty count, and the claim at its unlock
block succeeds. -/
theorem C5_witness :
    (stA9.bounties 0).map Bounty.active_subbounty_count = some 0 ∧
    (claim_bounty 5 0 stA9).1 = none := by
  have h := (C5_pending_payout_zero_children cfg0 stA9 stA9_reachable).1 0 bA9
    (.user 1) (.user 3) 5 (by decide) rfl
  constructor
  · rw [show stA9.bounties 0 = some bA9 from by decide]
    simp [h]
  · decide

/-- C2: in every reachable state each stored bounty's
`active_subbounty_count` equals the number of stored sub-bounty records
under it; a successful `add_subbounty` raises both the stored count and
the field by exactly one, and successful `claim_subbounty` and
`close_subbounty` each remove exactly one record and lower the count
field by exactly one (the count being at least one beforehand). -/
theorem C2_active_count_invariant :
    ∀ (cfg : Config) (s : State), Reachable cfg s →
      (∀ pb b, s.bounties pb = some b → b.active_subbounty_count = subCount s pb) ∧
      (∀ (cfg2 : Config) (g : AccountId) (id : BountyIndex) (v : Balance) (d : List Nat),
        (add_subbounty cfg2 g id v d s).1 = none →
        subCount (add_subbounty cfg2 g id v d s).2 id = subCount s id + 1 ∧
        ((add_subbounty cfg2 g id v d s).2.bounties id).map Bounty.active_subbounty_count =
          (s.bounties id).map (fun b => b.active_subbounty_count + 1)) ∧
      (∀ (now : BlockNum) (id sid : BountyIndex), (claim_subbounty now id sid s).1 = none →
        (s.subbounties id sid).isSome = true ∧
        (claim_subbounty now id sid s).2.subbounties id sid = none ∧
        subCount (claim_subbounty now id sid s).2 id + 1 = subCount s id ∧
        ((claim_subbounty now id sid s).2.bounties id).map Bounty.active_subbounty_count =
          (s.bounties id).map (fun b => b.active_subbounty_count - 1) ∧
        (∀ b, s.bounties id = some b → 1 ≤ b.active_subbounty_count)) ∧
      (∀ (ms : Option AccountId) (id sid : BountyIndex), (close_subbounty ms id sid s).1 = none →
        (s.subbounties id sid).isSome = true ∧
        (close_subbounty ms id sid s).2.subbounties id sid = none ∧
        subCount (close_subbounty ms id sid s).2 id + 1 = subCount s id ∧
        ((close_subbounty ms id sid s).2.bounties id).map Bounty.active_subbounty_count =
          (s.bounties id).map (fun b => b.active_subbounty_count - 1) ∧
        (∀ b, s.bounties id = some b → 1 ≤ b.active_subbounty_count)) := by
  intro cfg s hreach
  obtain ⟨⟨hk1, hk2⟩, hcnt, hpend⟩ := Inv_reachable cfg s hreach
  refine ⟨hcnt, ?_, ?_, ?_⟩
  · intro cfg2 g id v d h
    obtain ⟨b, hbid, hcount, hmap, hsubs⟩ := add_subbounty_shape cfg2 g id v d s h
    have hins := subCount_insert_fresh s (add_subbounty cfg2 g id v d s).2 id
      { value := v, fee := 0, curator_deposit := 0, status := .Added }
      (fun pb sid hx => (hk2 pb sid hx).2) hcount hsubs
    refine ⟨hins.1, ?_⟩
    rw [hmap, hbid]
    rfl
  · intro now id sid h
    obtain ⟨sb, hsub, hcount, hsubs, hmap, hother⟩ := claim_subbounty_shape now id sid s h
    have hsid : sid < s.bountyCount := (hk2 id sid (by simp [hsub])).2
    obtain ⟨hdel1, hdel2, _⟩ := subCount_delete s _ id sid sb hsub hsid hcount hsubs
    refine ⟨by simp [hsub], ?_, ?_, hmap, ?_⟩
    · rw [hsubs]
      simp [updSub]
    · rw [hdel1]
      exact Nat.sub_add_cancel hdel2
    · intro b hbid
      rw [hcnt id b hbid]
      exact hdel2
  · intro ms id sid h
    have heq := close_subbounty_success_eq ms id sid s h
    rw [heq] at h
    rw [heq]
    obtain ⟨sb, hsub, hcount, hsubs, hmap, hfee, hother⟩ :=
      impl_close_subbounty_shape id sid s h
    have hsid : sid < s.bountyCount := (hk2 id sid (by simp [hsub])).2
    obtain ⟨hdel1, hdel2, _⟩ := subCount_delete s _ id sid sb hsub hsid hcount hsubs
    refine ⟨by simp [hsub], ?_, ?_, hmap, ?_⟩
    · rw [hsubs]
      simp [updSub]
    · rw [hdel1]
      exact Nat.sub_add_cancel hdel2
    · intro b hbid
      rw [hcnt id b hbid]
      exact hdel2

/-- C2 witness: at the reachable state `stA6` bounty 0 stores count 1 and
indeed exactly one sub-bounty record is stored under it. -/
theorem C2_witness :
    (1 : Nat) = subCount stA6 0 ∧ subCount stA6 0 = 1 := by
  have h := (C2_active_count_invariant cfg0 stA6 stA6_reachable).1 0 bA6 (by decide)
  exact ⟨h, by decide⟩

/-- C6: `claim_bounty` is callable by any signed account and succeeds
exactly on a stored `PendingPayout` bounty past its unlock block (failing
`Premature` when called early); on success it unreserves the curator
deposit, pays the curator `min fee escrow_balance`, pays the beneficiary
the rest of the escrow balance, deletes the record and its description,
and a second claim on the same id fails `InvalidIndex`. -/
theorem C6_claim_bounty_exactly_once (now : BlockNum) (id : BountyIndex) (s : State) :
    ((claim_bounty now id s).1 = none ↔ ∃ b c ben u, s.bounties id = some b ∧
      b.status = .PendingPayout c ben u ∧ u ≤ now) ∧
    (∀ b c ben u, s.bounties id = some b → b.status = .PendingPayout c ben u → now < u →
      claim_bounty now id s = (some .Premature, s)) ∧
    (∀ b c ben u, s.bounties id = some b → b.status = .PendingPayout c ben u → u ≤ now →
      c ≠ .escrow id → ben ≠ .escrow id → c ≠ ben → b.curator_deposit ≤ s.reserved c →
      (claim_bounty now id s).2.bounties id = none ∧
      (claim_bounty now id s).2.descriptions id = none ∧
      (claim_bounty now id s).2.free c =
        s.free c + b.curator_deposit + min b.fee (s.free (.escrow id)) ∧
      (claim_bounty now id s).2.reserved c = s.reserved c - b.curator_deposit ∧
      (claim_bounty now id s).2.free ben =
        s.free ben + (s.free (.escrow id) - min b.fee (s.free (.escrow id))) ∧
      (claim_bounty now id s).2.free (.escrow id) = 0 ∧
      (∀ now2, (claim_bounty now2 id (claim_bounty now id s).2).1 = some .InvalidIndex)) := by
  refine ⟨claim_bounty_succeeds_iff now id s, ?_, ?_⟩
  · intro b c ben u hbid hst hlt
    unfold claim_bounty
    rw [hbid]
    dsimp only
    rw [hst]
    dsimp only
    rw [if_neg (not_le.mpr hlt)]
  · intro b c ben u hbid hst hle hc hben hcben hdep
    unfold claim_bounty
    rw [hbid]
    dsimp only
    rw [hst]
    dsimp only
    rw [if_pos hle]
    dsimp only
    obtain ⟨h1fc, h1rc, h1o⟩ := unreserveOp_effect s c b.curator_deposit
    have hmin : min b.curator_deposit (s.reserved c) = b.curator_deposit := min_eq_left hdep
    rw [hmin] at h1fc h1rc
    have h1esc : (unreserveOp s c b.curator_deposit).free (.escrow id) = s.free (.escrow id) :=
      (h1o _ (Ne.symm hc)).1
    have h1ben : (unreserveOp s c b.curator_deposit).free ben = s.free ben :=
      (h1o _ (Ne.symm hcben)).1
    have hfeele : min b.fee (s.free (.escrow id)) ≤
        (unreserveOp s c b.curator_deposit).free (.escrow id) := by
      rw [h1esc]
      exact min_le_right _ _
    obtain ⟨h2esc, h2c, h2o⟩ := transferBestEffort_success
      (unreserveOp s c b.curator_deposit) (.escrow id) c
      (min b.fee (s.free (.escrow id))) hfeele hc
    have h2ben := h2o ben hben (Ne.symm hcben)
    have h3le : s.free (.escrow id) - min b.fee (s.free (.escrow id)) ≤
        (transferBestEffort (unreserveOp s c b.curator_deposit) (.escrow id) c
          (min b.fee (s.free (.escrow id)))).free (.escrow id) := by
      rw [h2esc, h1esc]
    obtain ⟨h3esc, h3ben, h3o⟩ := transferBestEffort_success
      (transferBestEffort (unreserveOp s c b.curator_deposit) (.escrow id) c
        (min b.fee (s.free (.escrow id)))) (.escrow id) ben
      (s.free (.escrow id) - min b.fee (s.free (.escrow id))) h3le hben
    have h3c := h3o c hc hcben
    have hgone : (setBounty (setDesc (transferBestEffort (transferBestEffort
        (unreserveOp s c b.curator_deposit) (.escrow id) c
        (min b.fee (s.free (.escrow id)))) (.escrow id) ben
        (s.free (.escrow id) - min b.fee (s.free (.escrow id)))) id none) id
        none).bounties id = none := by
      simp [updB]
    refine ⟨hgone, by simp [setDesc, updD], ?_, ?_, ?_, ?_, ?_⟩
    · simp only [setBounty_free, setDesc_free]
      rw [h3c, h2c, h1fc]
    · simp only [setBounty_reserved, setDesc_reserved, transferBestEffort_reserved]
      exact h1rc
    · simp only [setBounty_free, setDesc_free]
      rw [h3ben, h2ben, h1ben]
    · simp only [setBounty_free, setDesc_free]
      rw [h3esc, h2esc, h1esc]
      exact Nat.sub_self _
    · intro now2
      rw [hgone]

/-- C6 witness: claiming bounty 0 at `stA9` at its unlock block 5 pays the
curator fee 10 and the beneficiary 40 out of the escrow balance 50,
removes the record, and a repeated claim fails `InvalidIndex`. -/
theorem C6_witness :
    (claim_bounty 5 0 stA9).2.bounties 0 = none ∧
    (claim_bounty 5 0 stA9).2.free (.user 1) = 995 + 5 + 10 ∧
    (claim_bounty 5 0 stA9).2.free (.user 3) = 1000 + 40 ∧
    (claim_bounty 5 0 stA9).2.free (.escrow 0) = 0 ∧
    (claim_bounty 6 0 (claim_bounty 5 0 stA9).2).1 = some .InvalidIndex := by
  have h := (C6_claim_bounty_exactly_once 5 0 stA9).2.2 bA9 (.user 1) (.user 3) 5
    (by decide) rfl (by decide) (by decide) (by decide) (by decide) (by decide)
  obtain ⟨h1, _, h3, _, h5, h6, h7⟩ := h
  refine ⟨h1, ?_, ?_, h6, h7 6⟩
  · rw [h3]
    decide
  · rw [h5]
    decide

end Bounties
